import Mathlib

/-! The Connected state of a SIP call leg.

A shallow embedding of `sippy/ua_state_connected.go` and of
`sippy/headers/sip_referred_by.go`.

The Connected state talks to its collaborators (the call leg `ua`, the server
transaction `t`, the transaction manager, the error logger) only through method
calls.  The embedding keeps the leg as a record `UA` and appends every call a
handler makes on a collaborator to `UA.calls`, in program order; calls that set
a leg field also update that field.  Values a collaborator hands back
(`GenRequest`, `PrepTr`, `OnLocalSdpChange`, header parsing) are fields of the
inputs, so that every outcome the Go code can observe is covered.

Only the two files above are among the sources.  Every type or method of another
file is either a parameter (`MsgBody`) or a definition marked
"Modelled from the spec"; the handlers themselves follow the Go text line by line.
Go's `int` is `Int` here: the only arithmetic is `Number - 1` on a positive
number and `lcseq + 1`.
-/

namespace Sippy

/-! ## Data model -/

/-- Modelled from the spec: the receive timestamp (`*sippy_time.MonoTime`, package
`sippy/time`), kept as a tick count. -/
structure MonoTime where
  ticks : Nat
deriving DecidableEq, Repr

/-- Result of a Go call returning `(value, error)`. -/
inductive Res (α : Type) where
  | ok (v : α)
  | error (err : String)
deriving DecidableEq, Repr

/-- The interface `sippy_types.MsgBody` (package `sippy/types`), restricted to the
methods the Connected state calls.  The body type and its methods are
parameters: the state only copies bodies,
compares their string forms, asks whether they parse and whether they need an
update, and overwrites the connection address of a parsed body. -/
class MsgBody (B : Type) where
  /-- Embeds `body.GetCopy()` -/
  GetCopy : B → B
  /-- Embeds `body.GetParsedBody()`: the error, if the body does not parse. -/
  GetParsedBody : B → Res Unit
  /-- The body after `SetCHeaderAddr(addr)` was called on its parsed form. -/
  SetCHeaderAddr : B → String → B
  /-- Embeds `body.NeedsUpdate()` -/
  NeedsUpdate : B → Bool
  /-- Embeds `body.String()` -/
  String : B → String

/-- Modelled from the spec: a SIP address (`sippy_header.SipAddress`, whose file is
not among the sources), with the two parts `NewSipAddress(name, url)` receives. -/
structure SipAddress where
  name : String
  url : String
deriving DecidableEq, Repr

/-- Modelled from the spec: `sippy_header.NewSipAddress(name, url)`, defined outside the sources. -/
def NewSipAddress (name : String) (url : String) : SipAddress :=
  { name := name, url := url }

/-- Modelled from the spec: `(*SipAddress).GetCopy()`: a fresh address with the same contents. -/
def SipAddress.GetCopy (self : SipAddress) : SipAddress :=
  { name := self.name, url := self.url }

/-- Modelled from the spec: `(*SipAddress).GetUrl()`, defined outside the sources. -/
def SipAddress.GetUrl (self : SipAddress) : String :=
  self.url

/-- Modelled from the spec: an address header field (`sipAddressHF`, whose file is
not among the sources); `GetBody` hands back the address or an error. -/
structure sipAddressHF where
  body : Res SipAddress
deriving DecidableEq, Repr

/-- Modelled from the spec: `newSipAddressHF(addr)`: a header field that already holds its
address. -/
def newSipAddressHF (addr : SipAddress) : sipAddressHF :=
  { body := .ok addr }

/-- Modelled from the spec: `(*sipAddressHF).GetBody(config)`, defined outside the sources. -/
def sipAddressHF.GetBody (self : sipAddressHF) : Res SipAddress :=
  self.body

/-- Embeds `sippy_header.SipReferredBy` -/
structure SipReferredBy where
  normalName : String
  sipAddressHF : sipAddressHF
deriving DecidableEq, Repr

/-- Embeds `_sip_referred_by_name` -/
def _sip_referred_by_name : String := "Referred-By"

/-- Embeds `sippy_header.NewSipReferredBy(addr)` -/
def NewSipReferredBy (addr : SipAddress) : SipReferredBy :=
  { normalName := _sip_referred_by_name, sipAddressHF := newSipAddressHF addr }

/-- Modelled from the spec: `sippy_header.SipReferTo`, defined outside the sources. -/
structure SipReferTo where
  sipAddressHF : sipAddressHF
deriving DecidableEq, Repr

/-- Modelled from the spec: `sippy_header.NewSipReferTo(addr)`, defined outside the sources. -/
def NewSipReferTo (addr : SipAddress) : SipReferTo :=
  { sipAddressHF := newSipAddressHF addr }

/-- Modelled from the spec: `sippy_header.SipAlso`, defined outside the sources. -/
structure SipAlso where
  sipAddressHF : sipAddressHF
deriving DecidableEq, Repr

/-- Modelled from the spec: `sippy_header.NewSipAlso(addr)`, defined outside the sources. -/
def NewSipAlso (addr : SipAddress) : SipAlso :=
  { sipAddressHF := newSipAddressHF addr }

/-- Modelled from the spec: `sippy_header.SipNumericHF`, defined outside the sources. -/
structure SipNumericHF where
  Number : Int
deriving DecidableEq, Repr

/-- Modelled from the spec: `sippy_header.SipMaxForwards`: `GetBody` parses on demand and may
fail. -/
structure SipMaxForwards where
  body : Res SipNumericHF
deriving DecidableEq, Repr

/-- Modelled from the spec: `sippy_header.NewSipMaxForwards(number)`, defined outside the
sources. -/
def NewSipMaxForwards (number : Int) : SipMaxForwards :=
  { body := .ok { Number := number } }

/-- Modelled from the spec: `(*SipMaxForwards).GetBody()`, defined outside the sources. -/
def SipMaxForwards.GetBody (self : SipMaxForwards) : Res SipNumericHF :=
  self.body

/-- Modelled from the spec: a header (`sippy_header.SipHeader`) as it occurs in
extra-header lists and on generated requests: Refer-To, Referred-By, Also,
Max-Forwards, or any other. -/
inductive SipHeader where
  | MaxForwards (h : SipMaxForwards)
  | ReferTo (h : SipReferTo)
  | Also (h : SipAlso)
  | ReferredBy (h : SipReferredBy)
  | Other (name : String) (body : String)
deriving DecidableEq, Repr

/-- Modelled from the spec: a response, built from code, reason phrase, body and
server-identity header. -/
structure SipResponse (B : Type) where
  scode : Int
  reason : String
  body : Option B
  server : String
deriving DecidableEq, Repr

/-- Modelled from the spec: an inbound request (`sippy_types.SipRequest`), as the
values its getters `GetMethod`, `GetReferTo`, `GetAlso`, `GetBody`, `GetRtime`,
`GetReason` and `GetMaxForwards` return. -/
structure SipRequest (B : Type) where
  method : String
  refer_to : Option sipAddressHF
  also : List sipAddressHF
  body : Option B
  rtime : MonoTime
  reason : Option String
  max_forwards : Option SipMaxForwards
deriving DecidableEq, Repr

/-- Modelled from the spec: `req.GenResponse(scode, reason, body, server)`, defined outside
the sources. -/
def SipRequest.GenResponse {B : Type} (_req : SipRequest B) (scode : Int) (reason : String)
    (body : Option B) (server : String) : SipResponse B :=
  { scode := scode, reason := reason, body := body, server := server }

/-- Modelled from the spec: an outgoing request built by
`ua.GenRequest(method, body, "", "", nil, extra_headers...)`, with the headers
appended to it afterwards. -/
structure GenRequest (B : Type) where
  method : String
  body : Option B
  extra_headers : List SipHeader
  appended : List SipHeader
deriving DecidableEq, Repr

/-- Modelled from the spec: `req.AppendHeader(h)`, defined outside the sources. -/
def GenRequest.AppendHeader {B : Type} (req : GenRequest B) (h : SipHeader) : GenRequest B :=
  { req with appended := req.appended ++ [h] }

/-- Modelled from the spec: `req.SetBody(body)`, defined outside the sources. -/
def GenRequest.SetBody {B : Type} (req : GenRequest B) (body : Option B) : GenRequest B :=
  { req with body := body }

/-- Modelled from the spec: a client transaction (`sippy_types.ClientTransaction`),
an identity and the body of the ACK it will send. -/
structure ClientTransaction (B : Type) where
  id : Nat
  ack_body : Option B
deriving DecidableEq, Repr

/-- Modelled from the spec: the part every call-control event shares: receive
timestamp, origin, optional reason, extra headers. -/
structure CCEventGeneric where
  rtime : MonoTime
  origin : String
  reason : Option String
  extra_headers : List SipHeader
deriving DecidableEq, Repr

/-- Modelled from the spec: the call-control events (Connect, Disconnect, Redirect,
Fail, Update, Info).  `Other` stands for every event type the Connected state has
no case for. -/
inductive CCEvent (B : Type) where
  | Connect (scode : Int) (scode_reason : String) (body : Option B) (g : CCEventGeneric)
  | Disconnect (redirect_url : Option SipAddress) (g : CCEventGeneric)
  | Redirect (redirect_url : Option SipAddress) (g : CCEventGeneric)
  | Fail (scode : Int) (scode_reason : String) (warning : Option String) (g : CCEventGeneric)
  | Update (max_forwards : Option SipMaxForwards) (body : Option B) (g : CCEventGeneric)
  | Info (body : Option B) (g : CCEventGeneric)
  | Other (g : CCEventGeneric)
deriving DecidableEq, Repr

namespace CCEvent

variable {B : Type}

/-- The shared part of an event. -/
def generic : CCEvent B → CCEventGeneric
  | Connect _ _ _ g => g
  | Disconnect _ g => g
  | Redirect _ g => g
  | Fail _ _ _ g => g
  | Update _ _ g => g
  | Info _ g => g
  | Other g => g

/-- Modelled from the spec: `event.GetRtime()`, defined outside the sources. -/
def GetRtime (ev : CCEvent B) : MonoTime := ev.generic.rtime

/-- Modelled from the spec: `event.GetOrigin()`, defined outside the sources. -/
def GetOrigin (ev : CCEvent B) : String := ev.generic.origin

/-- Modelled from the spec: `event.GetExtraHeaders()`, defined outside the sources. -/
def GetExtraHeaders (ev : CCEvent B) : List SipHeader := ev.generic.extra_headers

/-- Modelled from the spec: `event.SetReason(reason)`, defined outside the sources. -/
def SetReason (ev : CCEvent B) (reason : Option String) : CCEvent B :=
  match ev with
  | Connect c r b g => Connect c r b { g with reason := reason }
  | Disconnect u g => Disconnect u { g with reason := reason }
  | Redirect u g => Redirect u { g with reason := reason }
  | Fail c r w g => Fail c r w { g with reason := reason }
  | Update m b g => Update m b { g with reason := reason }
  | Info b g => Info b { g with reason := reason }
  | Other g => Other { g with reason := reason }

/-- Modelled from the spec: `ev.SetWarning(text)`, which only a Fail event carries. -/
def SetWarning (ev : CCEvent B) (text : String) : CCEvent B :=
  match ev with
  | Fail c r _ g => Fail c r (some text) g
  | e => e

end CCEvent

/-- Modelled from the spec: `NewCCEventDisconnect(also, rtime, origin)`, defined outside the
sources. -/
def NewCCEventDisconnect {B : Type} (also : Option SipAddress) (rtime : MonoTime)
    (origin : String) : CCEvent B :=
  .Disconnect also { rtime := rtime, origin := origin, reason := none, extra_headers := [] }

/-- Modelled from the spec: `NewCCEventUpdate(rtime, origin, reason, max_forwards, body)`,
defined outside the sources. -/
def NewCCEventUpdate {B : Type} (rtime : MonoTime) (origin : String) (reason : Option String)
    (max_forwards : Option SipMaxForwards) (body : Option B) : CCEvent B :=
  .Update max_forwards body
    { rtime := rtime, origin := origin, reason := reason, extra_headers := [] }

/-- Modelled from the spec: `NewCCEventConnect(scode, scode_reason, body, rtime, origin)`,
defined outside the sources. -/
def NewCCEventConnect {B : Type} (scode : Int) (scode_reason : String) (body : Option B)
    (rtime : MonoTime) (origin : String) : CCEvent B :=
  .Connect scode scode_reason body
    { rtime := rtime, origin := origin, reason := none, extra_headers := [] }

/-- Modelled from the spec: `NewCCEventFail(scode, scode_reason, rtime, origin)`, defined
outside the sources. -/
def NewCCEventFail {B : Type} (scode : Int) (scode_reason : String) (rtime : MonoTime)
    (origin : String) : CCEvent B :=
  .Fail scode scode_reason none
    { rtime := rtime, origin := origin, reason := none, extra_headers := [] }

/-- Modelled from the spec: `NewCCEventInfo(rtime, origin, body)`, defined outside the sources. -/
def NewCCEventInfo {B : Type} (rtime : MonoTime) (origin : String) (body : Option B) :
    CCEvent B :=
  .Info body { rtime := rtime, origin := origin, reason := none, extra_headers := [] }

/-- Modelled from the spec: the states a Connected leg can move to.  Their
constructors `NewUaStateDisconnected`, `NewUasStateUpdating` and
`NewUacStateUpdating` are not among the sources; a state is kept as the arguments
its constructor receives. -/
inductive UaState (B : Type) where
  | UaStateDisconnected (rtime : MonoTime) (origin : String) (scode : Int)
      (req : Option (SipRequest B))
  | UasStateUpdating
  | UacStateUpdating
deriving DecidableEq, Repr

/-- One call made on a collaborator. -/
inductive Call (B : Type) where
  | SendResponse (resp : SipResponse B)
  | SetUasResp (resp : SipResponse B)
  | SendUasResponse (scode : Int) (reason : String) (body : Option B)
      (contacts : List String) (ack_wait : Bool)
  | Enqueue (ev : CCEvent B)
  | RecvEvent (ev : CCEvent B)
  | OnRemoteSdpChange (body : B) (ev : CCEvent B)
  | OnLocalSdpChange (body : B) (ev : CCEvent B)
  | SetRSDP (body : Option B)
  | SetLSDP (body : Option B)
  | CancelCreditTimer
  | StartCreditTimer (rtime : MonoTime)
  | CancelExpireTimer
  | SetDisconnectTs (rtime : MonoTime)
  | SetConnectTs (rtime : MonoTime)
  | ConnCb (rtime : MonoTime) (origin : String)
  | GenRequest (method : String) (body : Option B) (extra_headers : List SipHeader)
  | IncLCSeq
  | BeginNewClientTransaction (req : GenRequest B) (redirect_controller : Bool)
  | PrepTr (req : GenRequest B)
  | SetClientTransaction (tr : ClientTransaction B)
  | BeginClientTransaction (req : GenRequest B) (tr : ClientTransaction B)
  | AckSetBody (body : Option B)
  | SendACK (tr : ClientTransaction B)
  | SetPendingTr (tr : Option (ClientTransaction B))
  | Cancel (tr : ClientTransaction B)
  | Error (msg : String)
deriving DecidableEq, Repr

/-- Modelled from the spec: the call leg (`sippy_types.UA`) as the Connected state
sees it: the fields behind its getters and setters, what its fallible methods
will answer, and the calls made so far. -/
structure UA (B : Type) where
  lsdp : Option B
  rsdp : Option B
  lcseq : Int
  pending_tr : Option (ClientTransaction B)
  client_tr : Option (ClientTransaction B)
  uas_resp : Option (SipResponse B)
  connect_ts : Option MonoTime
  disconnect_ts : Option MonoTime
  origin : String
  local_ua : String
  lcontacts : List String
  l_uri : sipAddressHF
  has_on_remote_sdp_change : Bool
  has_on_local_sdp_change : Bool
  should_use_refer : Bool
  /-- the error `GenRequest` returns, if it fails -/
  gen_request_err : Option String
  /-- the error `OnLocalSdpChange` returns, if it fails -/
  on_local_sdp_change_err : Option String
  /-- what `PrepTr` returns -/
  prep_tr : Res (ClientTransaction B)
  calls : List (Call B)
deriving DecidableEq, Repr

/-! ## The leg's methods -/

namespace UA

variable {B : Type}

/-- Records one call on a collaborator. -/
def call (ua : UA B) (c : Call B) : UA B :=
  { ua with calls := ua.calls ++ [c] }

/-- Modelled from the spec: `t.SendResponse(resp, false, nil)`, defined outside the sources. -/
def SendResponse (ua : UA B) (resp : SipResponse B) : UA B :=
  ua.call (.SendResponse resp)

/-- Modelled from the spec: `ua.SetUasResp(resp)`, defined outside the sources. -/
def SetUasResp (ua : UA B) (resp : SipResponse B) : UA B :=
  { ua with uas_resp := some resp, calls := ua.calls ++ [.SetUasResp resp] }

/-- Modelled from the spec: `ua.SendUasResponse(t, scode, reason, body, contacts, ack_wait)`,
defined outside the sources. -/
def SendUasResponse (ua : UA B) (scode : Int) (reason : String) (body : Option B)
    (contacts : List String) (ack_wait : Bool) : UA B :=
  ua.call (.SendUasResponse scode reason body contacts ack_wait)

/-- Modelled from the spec: `ua.Enqueue(event)`, defined outside the sources. -/
def Enqueue (ua : UA B) (ev : CCEvent B) : UA B :=
  ua.call (.Enqueue ev)

/-- Modelled from the spec: `ua.RecvEvent(event)`: the event is handed to the leg. -/
def RecvEvent (ua : UA B) (ev : CCEvent B) : UA B :=
  ua.call (.RecvEvent ev)

/-- Modelled from the spec: `ua.OnRemoteSdpChange(body, cb)`, where `cb` is
`func (x) { ua.DelayedRemoteSdpUpdate(event, x) }`. -/
def OnRemoteSdpChange (ua : UA B) (body : B) (event : CCEvent B) : UA B :=
  ua.call (.OnRemoteSdpChange body event)

/-- Modelled from the spec: `ua.OnLocalSdpChange(body, cb)`, where `cb` is
`func (_) { ua.RecvEvent(event) }`. -/
def OnLocalSdpChange (ua : UA B) (body : B) (event : CCEvent B) : UA B :=
  ua.call (.OnLocalSdpChange body event)

/-- Modelled from the spec: `ua.SetRSDP(body)`, defined outside the sources. -/
def SetRSDP (ua : UA B) (body : Option B) : UA B :=
  { ua with rsdp := body, calls := ua.calls ++ [.SetRSDP body] }

/-- Modelled from the spec: `ua.SetLSDP(body)`, defined outside the sources. -/
def SetLSDP (ua : UA B) (body : Option B) : UA B :=
  { ua with lsdp := body, calls := ua.calls ++ [.SetLSDP body] }

/-- Modelled from the spec: `ua.CancelCreditTimer()`, defined outside the sources. -/
def CancelCreditTimer (ua : UA B) : UA B :=
  ua.call .CancelCreditTimer

/-- Modelled from the spec: `ua.StartCreditTimer(rtime)`, defined outside the sources. -/
def StartCreditTimer (ua : UA B) (rtime : MonoTime) : UA B :=
  ua.call (.StartCreditTimer rtime)

/-- Modelled from the spec: `ua.CancelExpireTimer()`, defined outside the sources. -/
def CancelExpireTimer (ua : UA B) : UA B :=
  ua.call .CancelExpireTimer

/-- Modelled from the spec: `ua.SetDisconnectTs(rtime)`, defined outside the sources. -/
def SetDisconnectTs (ua : UA B) (rtime : MonoTime) : UA B :=
  { ua with disconnect_ts := some rtime, calls := ua.calls ++ [.SetDisconnectTs rtime] }

/-- Modelled from the spec: `ua.SetConnectTs(rtime)`, defined outside the sources. -/
def SetConnectTs (ua : UA B) (rtime : MonoTime) : UA B :=
  { ua with connect_ts := some rtime, calls := ua.calls ++ [.SetConnectTs rtime] }

/-- Modelled from the spec: `ua.ConnCb(rtime, origin)`, defined outside the sources. -/
def ConnCb (ua : UA B) (rtime : MonoTime) (origin : String) : UA B :=
  ua.call (.ConnCb rtime origin)

/-- Modelled from the spec: `ua.GenRequest(method, body, "", "", nil, extra_headers...)`: the
call is
recorded, and the leg answers with its error or with the request. -/
def GenRequest (ua : UA B) (method : String) (body : Option B)
    (extra_headers : List SipHeader) : Res (Sippy.GenRequest B) × UA B :=
  let ua := ua.call (.GenRequest method body extra_headers)
  match ua.gen_request_err with
  | some err => (.error err, ua)
  | none =>
    (.ok { method := method, body := body, extra_headers := extra_headers, appended := [] }, ua)

/-- Modelled from the spec: `ua.IncLCSeq()`, defined outside the sources. -/
def IncLCSeq (ua : UA B) : UA B :=
  { ua with lcseq := ua.lcseq + 1, calls := ua.calls ++ [.IncLCSeq] }

/-- Modelled from the spec: `ua.SipTM().BeginNewClientTransaction(req, controller, ...)`; the
flag says
whether the controller is `newRedirectController(ua)` or nil. -/
def BeginNewClientTransaction (ua : UA B) (req : Sippy.GenRequest B)
    (redirect_controller : Bool) : UA B :=
  ua.call (.BeginNewClientTransaction req redirect_controller)

/-- Modelled from the spec: `ua.PrepTr(req)`, defined outside the sources. -/
def PrepTr (ua : UA B) (req : Sippy.GenRequest B) : Res (ClientTransaction B) × UA B :=
  (ua.prep_tr, ua.call (.PrepTr req))

/-- Modelled from the spec: `ua.SetClientTransaction(tr)`, defined outside the sources. -/
def SetClientTransaction (ua : UA B) (tr : ClientTransaction B) : UA B :=
  { ua with client_tr := some tr, calls := ua.calls ++ [.SetClientTransaction tr] }

/-- Modelled from the spec: `ua.SipTM().BeginClientTransaction(req, tr)`, defined outside the
sources. -/
def BeginClientTransaction (ua : UA B) (req : Sippy.GenRequest B)
    (tr : ClientTransaction B) : UA B :=
  ua.call (.BeginClientTransaction req tr)

/-- Modelled from the spec: `ua.GetPendingTr().GetACK().SetBody(body)` on the pending
transaction `tr`. -/
def AckSetBody (ua : UA B) (tr : ClientTransaction B) (body : Option B) : UA B :=
  { ua with pending_tr := some { tr with ack_body := body },
            calls := ua.calls ++ [.AckSetBody body] }

/-- Modelled from the spec: `tr.SendACK()`, defined outside the sources. -/
def SendACK (ua : UA B) (tr : ClientTransaction B) : UA B :=
  ua.call (.SendACK tr)

/-- Modelled from the spec: `ua.SetPendingTr(tr)`, defined outside the sources. -/
def SetPendingTr (ua : UA B) (tr : Option (ClientTransaction B)) : UA B :=
  { ua with pending_tr := tr, calls := ua.calls ++ [.SetPendingTr tr] }

/-- Modelled from the spec: `tr.Cancel()`, defined outside the sources. -/
def Cancel (ua : UA B) (tr : ClientTransaction B) : UA B :=
  ua.call (.Cancel tr)

/-- Modelled from the spec: `config.ErrorLogger().Error(msg)`, defined outside the sources. -/
def Error (ua : UA B) (msg : String) : UA B :=
  ua.call (.Error msg)

end UA

/-! ## The Connected state -/

/-- How a handler call ends: it returns a value, or the Go runtime stops it
at a method call on a nil interface value. -/
inductive Outcome (α : Type) where
  | Returned (v : α)
  | NilDereference
deriving DecidableEq, Repr

/-- Embeds `sippy.UaStateConnected`: the leg and the state's own fields. -/
structure UaStateConnected (B : Type) where
  ua : UA B
  ka_tr : Option (ClientTransaction B)
  rtime : Option MonoTime
  origin : String
deriving DecidableEq, Repr

namespace UaStateConnected

variable {B : Type} [MsgBody B]

/-- Lines 101-113 of `RecvRequest`: the Update event of an INVITE is built and
either handed to the remote-SDP-change hook or enqueued. -/
def RecvRequest_update (ua : UA B) (req : SipRequest B) (body : Option B) :
    Outcome (Option (UaState B)) × UA B :=
  let event : CCEvent B :=
    NewCCEventUpdate req.rtime ua.origin req.reason req.max_forwards body
  match body with
  | some b =>
    if ua.has_on_remote_sdp_change then
      let ua := ua.OnRemoteSdpChange b event
      (.Returned (some .UasStateUpdating), ua)
    else
      let ua := ua.SetRSDP (some (MsgBody.GetCopy b))
      let ua := ua.Enqueue event
      (.Returned (some .UasStateUpdating), ua)
  | none =>
    let ua := ua.SetRSDP none
    let ua := ua.Enqueue event
    (.Returned (some .UasStateUpdating), ua)

/-- Embeds `(*UaStateConnected).RecvRequest(req, t)`, on the leg `self.ua`. -/
def RecvRequest (ua : UA B) (req : SipRequest B) : Outcome (Option (UaState B)) × UA B :=
  if req.method = "REFER" then
    match req.refer_to with
    | none =>
      let ua := ua.SendResponse (req.GenResponse 400 "Bad Request" none ua.local_ua)
      (.Returned none, ua)
    | some hf =>
      let ua := ua.SendResponse (req.GenResponse 202 "Accepted" none ua.local_ua)
      match hf.GetBody with
      | .error err =>
        let ua := ua.Error ("UaStateConnected::RecvRequest: #1: " ++ err)
        (.Returned none, ua)
      | .ok refer_to =>
        let ua := ua.Enqueue (NewCCEventDisconnect (some refer_to.GetCopy) req.rtime ua.origin)
        let ua := ua.RecvEvent (NewCCEventDisconnect none req.rtime ua.origin)
        (.Returned none, ua)
  else if req.method = "INVITE" then
    let resp := req.GenResponse 100 "Trying" none ua.local_ua
    let ua := ua.SetUasResp resp
    -- GetUasResp() hands back the response stored one line above
    let ua := ua.SendResponse resp
    match req.body with
    | none =>
      match ua.rsdp with
      | none => (.NilDereference, ua)
      | some rsdp =>
        let body := MsgBody.GetCopy rsdp
        match MsgBody.GetParsedBody body with
        | .error err =>
          let ua := ua.Error ("UaStateConnected::RecvRequest: #2: " ++ err)
          (.Returned none, ua)
        | .ok _ =>
          let body := MsgBody.SetCHeaderAddr body "0.0.0.0"
          RecvRequest_update ua req (some body)
    | some body =>
      match ua.rsdp with
      | none => (.NilDereference, ua)
      | some rsdp =>
        if MsgBody.String rsdp = MsgBody.String body then
          let ua := ua.SendUasResponse 200 "OK" ua.lsdp ua.lcontacts false
          (.Returned none, ua)
        else
          RecvRequest_update ua req (some body)
  else if req.method = "BYE" then
    let ua := ua.SendResponse (req.GenResponse 200 "OK" none ua.local_ua)
    let also_res : Res (Option SipAddress) :=
      match req.also with
      | [] => .ok none
      | hf :: _ =>
        match hf.GetBody with
        | .error err => .error err
        | .ok also_body => .ok (some also_body.GetCopy)
    match also_res with
    | .error err =>
      let ua := ua.Error ("UaStateConnected::RecvRequest: #3: " ++ err)
      (.Returned none, ua)
    | .ok also =>
      let event : CCEvent B := NewCCEventDisconnect also req.rtime ua.origin
      let event := event.SetReason req.reason
      let ua := ua.Enqueue event
      let ua := ua.CancelCreditTimer
      let ua := ua.SetDisconnectTs req.rtime
      (.Returned (some (.UaStateDisconnected req.rtime ua.origin 0 (some req))), ua)
  else if req.method = "INFO" then
    let ua := ua.SendResponse (req.GenResponse 200 "OK" none ua.local_ua)
    let event : CCEvent B := NewCCEventInfo req.rtime ua.origin req.body
    let event := event.SetReason req.reason
    let ua := ua.Enqueue event
    (.Returned none, ua)
  else if req.method = "OPTIONS" ∨ req.method = "UPDATE" then
    let ua := ua.SendResponse (req.GenResponse 200 "OK" none ua.local_ua)
    (.Returned none, ua)
  else
    (.Returned none, ua)

/-- The test `ua.GetLSDP() != nil && body != nil && ua.GetLSDP().String() == body.String()`
of `RecvEvent`. -/
def same_as_lsdp (ua : UA B) (body : Option B) : Bool :=
  match ua.lsdp, body with
  | some lsdp, some b => decide (MsgBody.String lsdp = MsgBody.String b)
  | _, _ => false

/-- The test `body != nil && ua.HasOnLocalSdpChange() && body.NeedsUpdate()` of
`RecvEvent`; when it holds, the result is the body the hook receives. -/
def local_hook_body (ua : UA B) (body : Option B) : Option B :=
  match body with
  | some b => if ua.has_on_local_sdp_change && MsgBody.NeedsUpdate b then some b else none
  | none => none

/-- The type switch at the head of `RecvEvent`: whether the event is a
Disconnect, Redirect or Fail, and the redirect target it carries. -/
def RecvEvent_switch (event : CCEvent B) : Bool × Option SipAddress :=
  match event with
  | .Disconnect redirect_url _ => (true, redirect_url)
  | .Redirect redirect_url _ => (true, redirect_url)
  | .Fail _ _ _ _ => (true, none)
  | _ => (false, none)

/-- Lines 198-200 of `RecvEvent`: the common end of the REFER and the BYE branch. -/
def RecvEvent_disconnected (ua : UA B) (event : CCEvent B) :
    Res (Option (UaState B)) × UA B :=
  let ua := ua.CancelCreditTimer
  let ua := ua.SetDisconnectTs event.GetRtime
  (.ok (some (.UaStateDisconnected event.GetRtime event.GetOrigin 0 none)), ua)

/-- Lines 237-249 of `RecvEvent`: the INVITE of an Update event is generated and
its client transaction started. -/
def RecvEvent_invite (ua : UA B) (body : Option B) (eh2 : List SipHeader) :
    Res (Option (UaState B)) × UA B :=
  match ua.GenRequest "INVITE" body eh2 with
  | (.error err, ua) => (.error err, ua)
  | (.ok req, ua) =>
    let ua := ua.IncLCSeq
    let ua := ua.SetLSDP body
    match ua.PrepTr req with
    | (.error err, ua) => (.error err, ua)
    | (.ok tr, ua) =>
      let ua := ua.SetClientTransaction tr
      let ua := ua.BeginClientTransaction req tr
      (.ok (some .UacStateUpdating), ua)

/-- Embeds `(*UaStateConnected).RecvEvent(event)`, on the leg `self.ua`.  The Go
result `(state, nil)` is `.ok state`, and `(nil, err)` is `.error err`. -/
def RecvEvent (ua : UA B) (event : CCEvent B) : Res (Option (UaState B)) × UA B :=
  let eh := event.GetExtraHeaders
  let (ok, redirect) := RecvEvent_switch event
  if ok then
    match redirect, ua.should_use_refer with
    | some redirect, true =>
      match ua.GenRequest "REFER" none eh with
      | (.error err, ua) => (.error err, ua)
      | (.ok req, ua) =>
        let ua := ua.IncLCSeq
        let also := NewSipReferTo redirect
        let req := req.AppendHeader (.ReferTo also)
        match ua.l_uri.GetBody with
        | .error err => (.error err, ua)
        | .ok lUri =>
          let rby := NewSipReferredBy (NewSipAddress "" lUri.GetUrl)
          let req := req.AppendHeader (.ReferredBy rby)
          let ua := ua.BeginNewClientTransaction req true
          RecvEvent_disconnected ua event
    | redirect, _ =>
      match ua.GenRequest "BYE" none eh with
      | (.error err, ua) => (.error err, ua)
      | (.ok req, ua) =>
        let ua := ua.IncLCSeq
        let req :=
          match redirect with
          | some redirect => req.AppendHeader (.Also (NewSipAlso redirect))
          | none => req
        let ua := ua.BeginNewClientTransaction req false
        RecvEvent_disconnected ua event
  else
  match event with
  | .Update max_forwards body _ =>
    if same_as_lsdp ua body then
      match ua.rsdp with
      | some rsdp =>
        let ua := ua.Enqueue
          (NewCCEventConnect 200 "OK" (some (MsgBody.GetCopy rsdp)) event.GetRtime event.GetOrigin)
        (.ok none, ua)
      | none =>
        let ua := ua.Enqueue (NewCCEventConnect 200 "OK" none event.GetRtime event.GetOrigin)
        (.ok none, ua)
    else
    match local_hook_body ua body with
    | some b =>
      let err := ua.on_local_sdp_change_err
      let ua := ua.OnLocalSdpChange b event
      match err with
      | some err =>
        let ev : CCEvent B := NewCCEventFail 400 "Malformed SDP Body" event.GetRtime ""
        let ev := ev.SetWarning err
        let ua := ua.Enqueue ev
        (.ok none, ua)
      | none => (.ok none, ua)
    | none =>
      match max_forwards with
      | some mf =>
        match mf.GetBody with
        | .error err => (.error err, ua)
        | .ok max_forwards =>
          if max_forwards.Number ≤ 0 then
            let ua := ua.Enqueue (NewCCEventFail 483 "Too Many Hops" event.GetRtime "")
            (.ok none, ua)
          else
            let eh2 := eh ++ [.MaxForwards (NewSipMaxForwards (max_forwards.Number - 1))]
            RecvEvent_invite ua body eh2
      | none => RecvEvent_invite ua body eh
  | .Info body _ =>
    match ua.GenRequest "INFO" none eh with
    | (.error err, ua) => (.error err, ua)
    | (.ok req, ua) =>
      let req := req.SetBody body
      let ua := ua.IncLCSeq
      let ua := ua.BeginNewClientTransaction req false
      (.ok none, ua)
  | .Connect _ _ body _ =>
    match ua.pending_tr with
    | some tr =>
      let ua := ua.CancelExpireTimer
      match local_hook_body ua body with
      | some b =>
        let ua := ua.OnLocalSdpChange b event
        (.ok none, ua)
      | none =>
        let ua := ua.StartCreditTimer event.GetRtime
        let ua := ua.SetConnectTs event.GetRtime
        let ua := ua.SetLSDP body
        let ua := ua.AckSetBody tr body
        let ua := ua.SendACK { tr with ack_body := body }
        let ua := ua.SetPendingTr none
        let ua := ua.ConnCb event.GetRtime ua.origin
        (.ok none, ua)
    | none => (.ok none, ua)
  | _ => (.ok none, ua)

/-- Embeds `(*UaStateConnected).OnStateChange()` -/
def OnStateChange (self : UaStateConnected B) : UaStateConnected B :=
  let self :=
    match self.ka_tr with
    | some ka_tr => { self with ua := self.ua.Cancel ka_tr, ka_tr := none }
    | none => self
  let self :=
    match self.ua.pending_tr with
    | some tr =>
      let ua := self.ua.SendACK tr
      { self with ua := ua.SetPendingTr none }
    | none => self
  { self with ua := self.ua.CancelExpireTimer }

/-- Embeds `(*UaStateConnected).OnActivation()` -/
def OnActivation (self : UaStateConnected B) : UaStateConnected B :=
  match self.rtime with
  | some rtime => { self with ua := self.ua.ConnCb rtime self.origin }
  | none => self

/-- Embeds `(*UaStateConnected).RecvACK(req)`, on the leg `self.ua`. -/
def RecvACK (ua : UA B) (req : SipRequest B) : UA B :=
  let rtime := req.rtime
  let body := req.body
  let event : CCEvent B := NewCCEventConnect 0 "ACK" body rtime ua.origin
  let ua := ua.CancelExpireTimer
  let ua := ua.StartCreditTimer rtime
  let ua := ua.SetConnectTs rtime
  let ua := ua.ConnCb rtime ua.origin
  match body with
  | some b =>
    if ua.has_on_remote_sdp_change then
      ua.OnRemoteSdpChange b event
    else
      let ua := ua.SetRSDP (some (MsgBody.GetCopy b))
      ua.Enqueue event
  | none =>
    let ua := ua.SetRSDP none
    ua.Enqueue event

end UaStateConnected

/-! ## Reading the record of calls -/

/-- The calls made between the leg `before` and the leg `after`. -/
def newCalls {B : Type} (before after : UA B) : List (Call B) :=
  after.calls.drop before.calls.length

namespace Call

variable {B : Type}

/-- Recognises `CancelCreditTimer()`. -/
def isCancelCreditTimer : Call B → Bool
  | .CancelCreditTimer => true
  | _ => false

/-- Recognises `StartCreditTimer(rtime)`. -/
def isStartCreditTimer : Call B → Bool
  | .StartCreditTimer _ => true
  | _ => false

/-- Recognises `CancelExpireTimer()`. -/
def isCancelExpireTimer : Call B → Bool
  | .CancelExpireTimer => true
  | _ => false

/-- Recognises `ConnCb(rtime, origin)`. -/
def isConnCb : Call B → Bool
  | .ConnCb _ _ => true
  | _ => false

/-- Recognises `t.SendResponse(...)` and `ua.SendUasResponse(...)`. -/
def isResponse : Call B → Bool
  | .SendResponse _ => true
  | .SendUasResponse _ _ _ _ _ => true
  | _ => false

/-- Recognises `ua.Enqueue(event)` and `ua.RecvEvent(event)`. -/
def isEvent : Call B → Bool
  | .Enqueue _ => true
  | .RecvEvent _ => true
  | _ => false

/-- Recognises `ua.GenRequest(...)`. -/
def isGenRequest : Call B → Bool
  | .GenRequest _ _ _ => true
  | _ => false

/-- Recognises the calls that start a client transaction. -/
def isBeginTransaction : Call B → Bool
  | .BeginNewClientTransaction _ _ => true
  | .BeginClientTransaction _ _ => true
  | _ => false

/-- Recognises the calls that invoke an SDP-change hook. -/
def isSdpHook : Call B → Bool
  | .OnRemoteSdpChange _ _ => true
  | .OnLocalSdpChange _ _ => true
  | _ => false

end Call

/-! ## Sample inputs -/

/-- A small concrete message body: its text, its connection address, whether it
parses and whether it needs an update. -/
structure SdpBody where
  content : String
  c_addr : String
  parses : Bool
  needs_update : Bool
deriving DecidableEq, Repr

instance : MsgBody SdpBody where
  GetCopy b := b
  GetParsedBody b := if b.parses then .ok () else .error "malformed SDP"
  SetCHeaderAddr b addr := { b with c_addr := addr }
  NeedsUpdate b := b.needs_update
  String b := "c=IN IP4 " ++ b.c_addr ++ " " ++ b.content

/-- A sample local session description. -/
def sdpLocal : SdpBody :=
  { content := "m=audio 4000 RTP/AVP 0", c_addr := "192.0.2.1", parses := true,
    needs_update := false }

/-- A sample remote session description. -/
def sdpRemote : SdpBody :=
  { content := "m=audio 6000 RTP/AVP 0", c_addr := "198.51.100.7", parses := true,
    needs_update := false }

/-- A sample leg in the Connected state with nothing pending. -/
def ua0 : UA SdpBody :=
  { lsdp := some sdpLocal, rsdp := some sdpRemote, lcseq := 1, pending_tr := none,
    client_tr := none, uas_resp := none, connect_ts := some ⟨10⟩, disconnect_ts := none,
    origin := "caller", local_ua := "b2bua", lcontacts := [],
    l_uri := { body := .ok { name := "Alice", url := "sip:alice@example.com" } },
    has_on_remote_sdp_change := false, has_on_local_sdp_change := false,
    should_use_refer := true, gen_request_err := none, on_local_sdp_change_err := none,
    prep_tr := .ok { id := 1, ack_body := none }, calls := [] }

/-- A BYE whose only Also header does not parse. -/
def byeBadAlso : SipRequest SdpBody :=
  { method := "BYE", refer_to := none, also := [{ body := .error "bad address" }],
    body := none, rtime := ⟨20⟩, reason := none, max_forwards := none }

/-- A BYE without Also headers. -/
def byePlain : SipRequest SdpBody :=
  { method := "BYE", refer_to := none, also := [], body := none, rtime := ⟨20⟩,
    reason := none, max_forwards := none }

/-- An Update event that offers the leg's own local SDP again and has no hops left. -/
def updSameBodyNoHops : CCEvent SdpBody :=
  .Update (some (NewSipMaxForwards 0)) (some sdpLocal)
    { rtime := ⟨30⟩, origin := "callee", reason := none, extra_headers := [] }

/-- A session description that differs from the sample leg's local one. -/
def sdpOffer : SdpBody :=
  { content := "m=audio 4002 RTP/AVP 8", c_addr := "192.0.2.1", parses := true,
    needs_update := false }

/-- The generic part of a sample event that carries one extra header. -/
def genericWithHeader : CCEventGeneric :=
  { rtime := ⟨30⟩, origin := "callee", reason := none,
    extra_headers := [.Other "X-Call-Id" "42"] }

/-- A REFER without a Refer-To header. -/
def referNoTarget : SipRequest SdpBody :=
  { method := "REFER", refer_to := none, also := [], body := none, rtime := ⟨40⟩,
    reason := none, max_forwards := none }

/-- A sample transfer target. -/
def addrBob : SipAddress :=
  { name := "Bob", url := "sip:bob@example.org" }

/-- A REFER whose Refer-To header parses. -/
def referToBob : SipRequest SdpBody :=
  { method := "REFER", refer_to := some { body := .ok addrBob }, also := [], body := none,
    rtime := ⟨40⟩, reason := none, max_forwards := none }

/-- A re-INVITE that repeats the sample leg's remote session description. -/
def inviteSameSdp : SipRequest SdpBody :=
  { method := "INVITE", refer_to := none, also := [], body := some sdpRemote, rtime := ⟨50⟩,
    reason := none, max_forwards := some (NewSipMaxForwards 70) }

/-- A re-INVITE without a body. -/
def inviteNoBody : SipRequest SdpBody :=
  { method := "INVITE", refer_to := none, also := [], body := none, rtime := ⟨50⟩,
    reason := none, max_forwards := some (NewSipMaxForwards 70) }

/-- A Disconnect event that redirects the call to Bob. -/
def disconnectToBob : CCEvent SdpBody :=
  .Disconnect (some addrBob)
    { rtime := ⟨60⟩, origin := "switch", reason := none, extra_headers := [] }

/-- A Connect event answering with the sample remote session description. -/
def connectAnswer : CCEvent SdpBody :=
  .Connect 200 "OK" (some sdpRemote)
    { rtime := ⟨70⟩, origin := "callee", reason := none, extra_headers := [] }

/-- Recognises `tr.SendACK()`. -/
def Call.isSendACK {B : Type} : Call B → Bool
  | .SendACK _ => true
  | _ => false

/-- Recognises `tr.Cancel()`. -/
def Call.isCancel {B : Type} : Call B → Bool
  | .Cancel _ => true
  | _ => false

/-- Recognises `ua.IncLCSeq()`. -/
def Call.isIncLCSeq {B : Type} : Call B → Bool
  | .IncLCSeq => true
  | _ => false

/-- Recognises `ua.Enqueue(event)`. -/
def Call.isEnqueue {B : Type} : Call B → Bool
  | .Enqueue _ => true
  | _ => false

/-- The sample leg with an INVITE transaction still waiting for its ACK. -/
def uaPending : UA SdpBody :=
  { ua0 with pending_tr := some { id := 7, ack_body := none } }

/-- The sample leg with a local-SDP-change hook that rejects what it is given. -/
def uaLocalHook : UA SdpBody :=
  { ua0 with has_on_local_sdp_change := true, on_local_sdp_change_err := some "bad codec" }

/-- A session description that has to pass through the local-SDP-change hook. -/
def sdpNeedsUpdate : SdpBody :=
  { content := "m=audio 4004 RTP/AVP 18", c_addr := "192.0.2.1", parses := true,
    needs_update := true }

/-- A REFER whose Refer-To header does not parse. -/
def referBadTarget : SipRequest SdpBody :=
  { method := "REFER", refer_to := some { body := .error "bad address" }, also := [],
    body := none, rtime := ⟨40⟩, reason := none, max_forwards := none }

/-- A Connected state on the sample leg with a live keepalive transaction and an
INVITE transaction still waiting for its ACK. -/
def stateBusy : UaStateConnected SdpBody :=
  { ua := uaPending, ka_tr := some { id := 9, ack_body := none }, rtime := some ⟨10⟩,
    origin := "caller" }

/-- The sample leg without a remote session description. -/
def uaNoRsdp : UA SdpBody :=
  { ua0 with rsdp := none }

/-- The sample leg with a local URI that does not parse. -/
def uaBadLocalUri : UA SdpBody :=
  { ua0 with l_uri := { body := .error "bad local uri" } }

/-- The sample leg on which `PrepTr` fails. -/
def uaPrepFails : UA SdpBody :=
  { ua0 with prep_tr := .error "no transport" }

/-- The sample leg on which `GenRequest` fails. -/
def uaGenFails : UA SdpBody :=
  { ua0 with gen_request_err := some "no route" }

/-- An Update event with a new offer and no Max-Forwards header. -/
def updNewOffer : CCEvent SdpBody :=
  .Update none (some sdpOffer)
    { rtime := ⟨30⟩, origin := "callee", reason := none, extra_headers := [] }

/-- A Fail event. -/
def failServerError : CCEvent SdpBody :=
  .Fail 500 "Server Error" none
    { rtime := ⟨80⟩, origin := "switch", reason := none, extra_headers := [] }

/-- Recognises `ua.PrepTr(req)`. -/
def Call.isPrepTr {B : Type} : Call B → Bool
  | .PrepTr _ => true
  | _ => false

/-! ## Theorems -/

section RecvRequestBye

variable {B : Type} [MsgBody B]

/-- C1 (as stated, refuted): a BYE whose Also header does not parse gets its
200 OK, but the handler returns nil and never cancels the credit timer. -/
theorem C1_bye_bad_also_counterexample :
    (UaStateConnected.RecvRequest ua0 byeBadAlso).1 = .Returned none ∧
    (newCalls ua0 (UaStateConnected.RecvRequest ua0 byeBadAlso).2).countP
      Call.isCancelCreditTimer = 0 := by
  decide

/-- C1 (amended): for every Connected-state BYE, whatever its body and Also
headers, the first call of `RecvRequest` sends 200 OK and no other response is
sent; when the BYE has no Also header, or its first Also header parses,
`RecvRequest` goes on to enqueue one Disconnect event, cancels the credit timer
exactly once, records the disconnect time and returns the Disconnected state. -/
theorem C1_bye_disconnects (ua : UA B) (req : SipRequest B) (hm : req.method = "BYE") :
    (newCalls ua (UaStateConnected.RecvRequest ua req).2).head? =
      some (.SendResponse
        { scode := 200, reason := "OK", body := none, server := ua.local_ua }) ∧
    (newCalls ua (UaStateConnected.RecvRequest ua req).2).countP Call.isResponse = 1 ∧
    ((∀ hf, req.also.head? = some hf → ∃ a, hf.GetBody = .ok a) →
      ∃ also : Option SipAddress,
        (UaStateConnected.RecvRequest ua req).1 =
          .Returned (some (.UaStateDisconnected req.rtime ua.origin 0 (some req))) ∧
        newCalls ua (UaStateConnected.RecvRequest ua req).2 =
          [.SendResponse { scode := 200, reason := "OK", body := none, server := ua.local_ua },
           .Enqueue (.Disconnect also
             { rtime := req.rtime, origin := ua.origin, reason := req.reason,
               extra_headers := [] }),
           .CancelCreditTimer,
           .SetDisconnectTs req.rtime] ∧
        (newCalls ua (UaStateConnected.RecvRequest ua req).2).countP
          Call.isCancelCreditTimer = 1) := by
  cases hal : req.also with
  | nil =>
    refine ⟨?_, ?_, fun _ => ⟨none, ?_⟩⟩ <;>
    simp [UaStateConnected.RecvRequest, hm, hal, newCalls, UA.SendResponse, UA.Enqueue,
      UA.CancelCreditTimer, UA.SetDisconnectTs, UA.call, SipRequest.GenResponse,
      NewCCEventDisconnect, CCEvent.SetReason, Call.isCancelCreditTimer, Call.isResponse]
  | cons hf rest =>
    cases hbody : hf.GetBody with
    | error err =>
      refine ⟨?_, ?_, fun hp => ?_⟩
      · simp [UaStateConnected.RecvRequest, hm, hal, hbody, newCalls, UA.SendResponse,
          UA.Error, UA.call, SipRequest.GenResponse]
      · simp [UaStateConnected.RecvRequest, hm, hal, hbody, newCalls, UA.SendResponse,
          UA.Error, UA.call, SipRequest.GenResponse, Call.isResponse]
      · obtain ⟨a, ha⟩ := hp hf (by simp [hal])
        rw [hbody] at ha
        cases ha
    | ok a =>
      refine ⟨?_, ?_, fun _ => ⟨some a.GetCopy, ?_⟩⟩ <;>
      simp [UaStateConnected.RecvRequest, hm, hal, hbody, newCalls, UA.SendResponse,
        UA.Enqueue, UA.CancelCreditTimer, UA.SetDisconnectTs, UA.call,
        SipRequest.GenResponse, NewCCEventDisconnect, CCEvent.SetReason,
        Call.isCancelCreditTimer, Call.isResponse]

/-- C1 (amended), at a BYE without Also headers on the sample leg. -/
theorem C1_bye_disconnects_witness :
    (UaStateConnected.RecvRequest ua0 byePlain).1 =
      .Returned (some (.UaStateDisconnected ⟨20⟩ "caller" 0 (some byePlain))) ∧
    newCalls ua0 (UaStateConnected.RecvRequest ua0 byePlain).2 =
      [.SendResponse { scode := 200, reason := "OK", body := none, server := "b2bua" },
       .Enqueue (.Disconnect none
         { rtime := ⟨20⟩, origin := "caller", reason := none, extra_headers := [] }),
       .CancelCreditTimer,
       .SetDisconnectTs ⟨20⟩] ∧
    (newCalls ua0 (UaStateConnected.RecvRequest ua0 byePlain).2).countP
      Call.isCancelCreditTimer = 1 := by
  obtain ⟨also, h1, h2, h3⟩ :=
    (C1_bye_disconnects ua0 byePlain rfl).2.2 (by simp [byePlain])
  exact ⟨h1, by decide, h3⟩

end RecvRequestBye

section RecvEventUpdate

variable {B : Type} [MsgBody B]

/-- C2 (as stated, refuted): an Update event with Max-Forwards 0 whose body has the
text of the leg's local SDP takes the unchanged-body path; the only event
enqueued is a Connect, no Fail 483 is produced.  Likewise, on a leg with a
local-SDP-change hook, an Update event with Max-Forwards 0 whose body needs an
update goes to the hook, and no Fail 483 is produced. -/
theorem C2_no_hops_same_body_counterexample :
    UaStateConnected.RecvEvent ua0 updSameBodyNoHops =
      (.ok none, ua0.Enqueue (NewCCEventConnect 200 "OK" (some sdpRemote) ⟨30⟩ "callee")) ∧
    newCalls ua0 (UaStateConnected.RecvEvent ua0 updSameBodyNoHops).2 =
      [.Enqueue (.Connect 200 "OK" (some sdpRemote)
        { rtime := ⟨30⟩, origin := "callee", reason := none, extra_headers := [] })] ∧
    newCalls uaLocalHook (UaStateConnected.RecvEvent uaLocalHook
        (.Update (some (NewSipMaxForwards 0)) (some sdpNeedsUpdate) genericWithHeader)).2 =
      [.OnLocalSdpChange sdpNeedsUpdate
         (.Update (some (NewSipMaxForwards 0)) (some sdpNeedsUpdate) genericWithHeader),
       .Enqueue (.Fail 400 "Malformed SDP Body" (some "bad codec")
         { rtime := ⟨30⟩, origin := "", reason := none, extra_headers := [] })] := by
  decide

/-- C2 (amended): for every Update event whose Max-Forwards header parses to a
number <= 0, whatever its body, the leg's local SDP and the hook configuration,
`RecvEvent` returns (nil, nil), never calls `GenRequest` and starts no
transaction; and when, in addition, the body does not have the text of the local
SDP (or is nil, or the local SDP is nil) and the local-SDP-change hook does not
apply, its only call is the enqueueing of a Fail event with code 483 and reason
"Too Many Hops". -/
theorem C2_too_many_hops (ua : UA B) (mf : SipMaxForwards) (n : SipNumericHF)
    (body : Option B) (g : CCEventGeneric)
    (hmf : mf.GetBody = .ok n) (hn : n.Number ≤ 0) :
    (UaStateConnected.RecvEvent ua (.Update (some mf) body g)).1 = .ok none ∧
    (newCalls ua (UaStateConnected.RecvEvent ua (.Update (some mf) body g)).2).countP
      Call.isGenRequest = 0 ∧
    (newCalls ua (UaStateConnected.RecvEvent ua (.Update (some mf) body g)).2).countP
      Call.isBeginTransaction = 0 ∧
    (UaStateConnected.same_as_lsdp ua body = false →
      UaStateConnected.local_hook_body ua body = none →
      UaStateConnected.RecvEvent ua (.Update (some mf) body g) =
        (.ok none, ua.Enqueue (NewCCEventFail 483 "Too Many Hops" g.rtime "")) ∧
      newCalls ua (UaStateConnected.RecvEvent ua (.Update (some mf) body g)).2 =
        [.Enqueue (.Fail 483 "Too Many Hops" none
          { rtime := g.rtime, origin := "", reason := none, extra_headers := [] })]) := by
  cases hf : UaStateConnected.same_as_lsdp ua body <;>
  cases hh : UaStateConnected.local_hook_body ua body <;>
  cases hr : ua.rsdp <;>
  cases ho : ua.on_local_sdp_change_err <;>
  simp [UaStateConnected.RecvEvent, UaStateConnected.RecvEvent_switch, hf, hh, hr, ho, hmf,
    hn, newCalls, UA.Enqueue, UA.OnLocalSdpChange, UA.call, NewCCEventFail,
    NewCCEventConnect, CCEvent.SetWarning, CCEvent.GetRtime, CCEvent.GetOrigin,
    CCEvent.generic, Call.isGenRequest, Call.isBeginTransaction]

/-- C2 (amended), at an Update event with Max-Forwards 0 and a new offer, and at one
with Max-Forwards 0 that repeats the local SDP: a Fail 483 is enqueued for the
first, and neither generates a request. -/
theorem C2_too_many_hops_witness :
    (UaStateConnected.RecvEvent ua0
        (.Update (some (NewSipMaxForwards 0)) (some sdpOffer)
          { rtime := ⟨30⟩, origin := "callee", reason := none, extra_headers := [] }) =
      (.ok none, ua0.Enqueue (NewCCEventFail 483 "Too Many Hops" ⟨30⟩ "")) ∧
    newCalls ua0 (UaStateConnected.RecvEvent ua0
        (.Update (some (NewSipMaxForwards 0)) (some sdpOffer)
          { rtime := ⟨30⟩, origin := "callee", reason := none, extra_headers := [] })).2 =
      [.Enqueue (.Fail 483 "Too Many Hops" none
        { rtime := ⟨30⟩, origin := "", reason := none, extra_headers := [] })]) ∧
    (newCalls ua0 (UaStateConnected.RecvEvent ua0
        (.Update (some (NewSipMaxForwards 0)) (some sdpLocal)
          { rtime := ⟨30⟩, origin := "callee", reason := none, extra_headers := [] })).2).countP
      Call.isGenRequest = 0 :=
  ⟨(C2_too_many_hops ua0 (NewSipMaxForwards 0) { Number := 0 } (some sdpOffer)
      { rtime := ⟨30⟩, origin := "callee", reason := none, extra_headers := [] }
      rfl (by decide)).2.2.2 (by decide) (by decide),
   (C2_too_many_hops ua0 (NewSipMaxForwards 0) { Number := 0 } (some sdpLocal)
      { rtime := ⟨30⟩, origin := "callee", reason := none, extra_headers := [] }
      rfl (by decide)).2.1⟩

end RecvEventUpdate

section RecvEventInvite

variable {B : Type} [MsgBody B]

/-- C3: for an Update event whose Max-Forwards header parses to N > 0, every
`GenRequest` call `RecvEvent` makes is `GenRequest("INVITE", body, ...)` with the
event's own extra headers followed by one Max-Forwards header of number N - 1,
and that call is made (once, first) whenever neither the unchanged-body path nor
the local-SDP-change hook applies; for an Update event without a Max-Forwards
header the extra headers are handed over unchanged. -/
theorem C3_invite_max_forwards (ua : UA B) (mf : SipMaxForwards) (n : SipNumericHF)
    (body : Option B) (g : CCEventGeneric)
    (hmf : mf.GetBody = .ok n) (hn : 0 < n.Number) :
    (∀ m b hs, Call.GenRequest m b hs ∈
        newCalls ua (UaStateConnected.RecvEvent ua (.Update (some mf) body g)).2 →
      m = "INVITE" ∧ b = body ∧
      hs = g.extra_headers ++ [.MaxForwards (NewSipMaxForwards (n.Number - 1))]) ∧
    (UaStateConnected.same_as_lsdp ua body = false →
      UaStateConnected.local_hook_body ua body = none →
      (newCalls ua (UaStateConnected.RecvEvent ua (.Update (some mf) body g)).2).head? =
        some (.GenRequest "INVITE" body
          (g.extra_headers ++ [.MaxForwards (NewSipMaxForwards (n.Number - 1))])) ∧
      (newCalls ua (UaStateConnected.RecvEvent ua (.Update (some mf) body g)).2).countP
        Call.isGenRequest = 1) ∧
    (∀ m b hs, Call.GenRequest m b hs ∈
        newCalls ua (UaStateConnected.RecvEvent ua (.Update none body g)).2 →
      m = "INVITE" ∧ b = body ∧ hs = g.extra_headers) ∧
    (UaStateConnected.same_as_lsdp ua body = false →
      UaStateConnected.local_hook_body ua body = none →
      (newCalls ua (UaStateConnected.RecvEvent ua (.Update none body g)).2).head? =
        some (.GenRequest "INVITE" body g.extra_headers) ∧
      (newCalls ua (UaStateConnected.RecvEvent ua (.Update none body g)).2).countP
        Call.isGenRequest = 1) := by
  have hn2 : ¬ n.Number ≤ 0 := not_le.mpr hn
  cases hf : UaStateConnected.same_as_lsdp ua body <;>
  cases hh : UaStateConnected.local_hook_body ua body <;>
  cases hr : ua.rsdp <;>
  cases he : ua.gen_request_err <;>
  cases hp : ua.prep_tr <;>
  cases ho : ua.on_local_sdp_change_err <;>
  simp [UaStateConnected.RecvEvent, UaStateConnected.RecvEvent_switch,
    UaStateConnected.RecvEvent_invite, hf, hh, hr, he, hp, ho, hmf, hn2,
    newCalls, UA.Enqueue, UA.call, UA.GenRequest, UA.IncLCSeq, UA.SetLSDP, UA.PrepTr,
    UA.SetClientTransaction, UA.BeginClientTransaction, UA.OnLocalSdpChange,
    NewCCEventFail, NewCCEventConnect, CCEvent.SetWarning,
    CCEvent.GetRtime, CCEvent.GetOrigin, CCEvent.GetExtraHeaders, CCEvent.generic,
    Call.isGenRequest]

/-- C3, at an Update event with Max-Forwards 70, one extra header and a new offer:
the INVITE is generated with that header followed by Max-Forwards 69. -/
theorem C3_invite_max_forwards_witness :
    (newCalls ua0 (UaStateConnected.RecvEvent ua0
        (.Update (some (NewSipMaxForwards 70)) (some sdpOffer) genericWithHeader)).2).head? =
      some (.GenRequest "INVITE" (some sdpOffer)
        [.Other "X-Call-Id" "42", .MaxForwards (NewSipMaxForwards 69)]) ∧
    (newCalls ua0 (UaStateConnected.RecvEvent ua0
        (.Update (some (NewSipMaxForwards 70)) (some sdpOffer) genericWithHeader)).2).countP
      Call.isGenRequest = 1 :=
  (C3_invite_max_forwards ua0 (NewSipMaxForwards 70) { Number := 70 } (some sdpOffer)
    genericWithHeader rfl (by decide)).2.1 (by decide) (by decide)

end RecvEventInvite

section RecvRequestRefer

variable {B : Type} [MsgBody B]

/-- C4: for every Connected-state REFER without a Refer-To header, `RecvRequest`
makes exactly one call, the sending of a 400 "Bad Request" response; it enqueues
and delivers no event and returns nil, leaving the leg otherwise as it was. -/
theorem C4_refer_without_target (ua : UA B) (req : SipRequest B)
    (hm : req.method = "REFER") (ht : req.refer_to = none) :
    UaStateConnected.RecvRequest ua req =
      (.Returned none,
       ua.SendResponse
         { scode := 400, reason := "Bad Request", body := none, server := ua.local_ua }) ∧
    newCalls ua (UaStateConnected.RecvRequest ua req).2 =
      [.SendResponse
        { scode := 400, reason := "Bad Request", body := none, server := ua.local_ua }] ∧
    (newCalls ua (UaStateConnected.RecvRequest ua req).2).countP Call.isResponse = 1 ∧
    (newCalls ua (UaStateConnected.RecvRequest ua req).2).countP Call.isEvent = 0 := by
  simp [UaStateConnected.RecvRequest, hm, ht, newCalls, UA.SendResponse, UA.call,
    SipRequest.GenResponse, Call.isResponse, Call.isEvent]

/-- C4, at a REFER without Refer-To on the sample leg. -/
theorem C4_refer_without_target_witness :
    UaStateConnected.RecvRequest ua0 referNoTarget =
      (.Returned none,
       ua0.SendResponse
         { scode := 400, reason := "Bad Request", body := none, server := ua0.local_ua }) ∧
    newCalls ua0 (UaStateConnected.RecvRequest ua0 referNoTarget).2 =
      [.SendResponse
        { scode := 400, reason := "Bad Request", body := none, server := ua0.local_ua }] ∧
    (newCalls ua0 (UaStateConnected.RecvRequest ua0 referNoTarget).2).countP
      Call.isResponse = 1 ∧
    (newCalls ua0 (UaStateConnected.RecvRequest ua0 referNoTarget).2).countP
      Call.isEvent = 0 :=
  C4_refer_without_target ua0 referNoTarget rfl rfl

/-- C5: for every Connected-state REFER whose Refer-To header parses to `target`,
`RecvRequest` sends 202 Accepted, then enqueues a Disconnect event whose redirect
is a copy of `target`, then delivers a Disconnect event with nil redirect to the
leg, and returns nil; and `RecvEvent` on that nil-redirect Disconnect, on any leg
whose request generation succeeds, generates a BYE, starts its transaction with
no header appended (so no Also header) and no redirect controller, cancels the
credit timer and returns the Disconnected state. -/
theorem C5_refer_with_target (ua ua2 : UA B) (req : SipRequest B) (hf : sipAddressHF)
    (target : SipAddress)
    (hm : req.method = "REFER") (ht : req.refer_to = some hf) (hb : hf.GetBody = .ok target)
    (hg : ua2.gen_request_err = none) :
    (UaStateConnected.RecvRequest ua req).1 = .Returned none ∧
    newCalls ua (UaStateConnected.RecvRequest ua req).2 =
      [.SendResponse
         { scode := 202, reason := "Accepted", body := none, server := ua.local_ua },
       .Enqueue (NewCCEventDisconnect (some target.GetCopy) req.rtime ua.origin),
       .RecvEvent (NewCCEventDisconnect none req.rtime ua.origin)] ∧
    target.GetCopy = target ∧
    (UaStateConnected.RecvEvent ua2 (NewCCEventDisconnect none req.rtime ua.origin)).1 =
      .ok (some (.UaStateDisconnected req.rtime ua.origin 0 none)) ∧
    newCalls ua2
        (UaStateConnected.RecvEvent ua2 (NewCCEventDisconnect none req.rtime ua.origin)).2 =
      [.GenRequest "BYE" none [],
       .IncLCSeq,
       .BeginNewClientTransaction
         { method := "BYE", body := none, extra_headers := [], appended := [] } false,
       .CancelCreditTimer,
       .SetDisconnectTs req.rtime] := by
  refine ⟨?_, ?_, rfl, ?_, ?_⟩ <;>
  simp [UaStateConnected.RecvRequest, UaStateConnected.RecvEvent,
    UaStateConnected.RecvEvent_switch, UaStateConnected.RecvEvent_disconnected,
    hm, ht, hb, hg, newCalls, UA.SendResponse, UA.Enqueue, UA.RecvEvent, UA.call,
    UA.GenRequest, UA.IncLCSeq, UA.BeginNewClientTransaction, UA.CancelCreditTimer,
    UA.SetDisconnectTs, SipRequest.GenResponse, NewCCEventDisconnect,
    CCEvent.GetRtime, CCEvent.GetOrigin, CCEvent.GetExtraHeaders, CCEvent.generic]

/-- C5, on the sample leg: the REFER towards Bob is accepted, and the
nil-redirect Disconnect delivered to the leg as it then stands ends in the
Disconnected state. -/
theorem C5_refer_with_target_witness :
    newCalls ua0 (UaStateConnected.RecvRequest ua0 referToBob).2 =
      [.SendResponse { scode := 202, reason := "Accepted", body := none, server := "b2bua" },
       .Enqueue (NewCCEventDisconnect (some addrBob) ⟨40⟩ "caller"),
       .RecvEvent (NewCCEventDisconnect none ⟨40⟩ "caller")] ∧
    (UaStateConnected.RecvEvent (UaStateConnected.RecvRequest ua0 referToBob).2
        (NewCCEventDisconnect none ⟨40⟩ "caller")).1 =
      .ok (some (.UaStateDisconnected ⟨40⟩ "caller" 0 none)) :=
  ⟨(C5_refer_with_target ua0 (UaStateConnected.RecvRequest ua0 referToBob).2 referToBob
      { body := .ok addrBob } addrBob rfl rfl rfl rfl).2.1,
   (C5_refer_with_target ua0 (UaStateConnected.RecvRequest ua0 referToBob).2 referToBob
      { body := .ok addrBob } addrBob rfl rfl rfl rfl).2.2.2.1⟩

end RecvRequestRefer

section RecvRequestInvite

variable {B : Type} [MsgBody B]

/-- C6: for every Connected-state INVITE whose body has the same string form as
the current remote SDP, `RecvRequest` sends 100 Trying and then 200 OK with the
leg's current local SDP, returns nil, enqueues or delivers no event, invokes no
SDP hook and leaves the stored local and remote SDP as they were. -/
theorem C6_reinvite_same_sdp (ua : UA B) (req : SipRequest B) (b r : B)
    (hm : req.method = "INVITE") (hb : req.body = some b) (hr : ua.rsdp = some r)
    (hs : MsgBody.String r = MsgBody.String b) :
    (UaStateConnected.RecvRequest ua req).1 = .Returned none ∧
    newCalls ua (UaStateConnected.RecvRequest ua req).2 =
      [.SetUasResp { scode := 100, reason := "Trying", body := none, server := ua.local_ua },
       .SendResponse { scode := 100, reason := "Trying", body := none, server := ua.local_ua },
       .SendUasResponse 200 "OK" ua.lsdp ua.lcontacts false] ∧
    (newCalls ua (UaStateConnected.RecvRequest ua req).2).countP Call.isEvent = 0 ∧
    (newCalls ua (UaStateConnected.RecvRequest ua req).2).countP Call.isSdpHook = 0 ∧
    (UaStateConnected.RecvRequest ua req).2.lsdp = ua.lsdp ∧
    (UaStateConnected.RecvRequest ua req).2.rsdp = ua.rsdp := by
  simp [UaStateConnected.RecvRequest, hm, hb, hr, hs, newCalls, UA.SetUasResp,
    UA.SendResponse, UA.SendUasResponse, UA.call, SipRequest.GenResponse,
    Call.isEvent, Call.isSdpHook]

/-- C6, at a re-INVITE repeating the sample leg's remote SDP. -/
theorem C6_reinvite_same_sdp_witness :
    (UaStateConnected.RecvRequest ua0 inviteSameSdp).1 = .Returned none ∧
    newCalls ua0 (UaStateConnected.RecvRequest ua0 inviteSameSdp).2 =
      [.SetUasResp { scode := 100, reason := "Trying", body := none, server := "b2bua" },
       .SendResponse { scode := 100, reason := "Trying", body := none, server := "b2bua" },
       .SendUasResponse 200 "OK" (some sdpLocal) [] false] :=
  ⟨(C6_reinvite_same_sdp ua0 inviteSameSdp sdpRemote sdpRemote rfl rfl rfl rfl).1,
   (C6_reinvite_same_sdp ua0 inviteSameSdp sdpRemote sdpRemote rfl rfl rfl rfl).2.1⟩

/-- C7: for a Connected leg whose remote SDP `r` is non-nil and whose copy parses,
a body-less INVITE makes `RecvRequest` send 100 Trying, build the Update event
around a copy of `r` with connection address "0.0.0.0", and return the
callee-side Updating state; with a remote-SDP-change hook the body and the event
go to the hook, without one a copy of the body becomes the remote SDP and the
event is enqueued. -/
theorem C7_bodyless_invite_hold (ua : UA B) (req : SipRequest B) (r : B)
    (hm : req.method = "INVITE") (hb : req.body = none) (hr : ua.rsdp = some r)
    (hp : MsgBody.GetParsedBody (MsgBody.GetCopy r) = .ok ()) :
    (UaStateConnected.RecvRequest ua req).1 = .Returned (some .UasStateUpdating) ∧
    newCalls ua (UaStateConnected.RecvRequest ua req).2 =
      [.SetUasResp { scode := 100, reason := "Trying", body := none, server := ua.local_ua },
       .SendResponse { scode := 100, reason := "Trying", body := none, server := ua.local_ua }]
      ++
      (if ua.has_on_remote_sdp_change = true then
        [.OnRemoteSdpChange (MsgBody.SetCHeaderAddr (MsgBody.GetCopy r) "0.0.0.0")
          (NewCCEventUpdate req.rtime ua.origin req.reason req.max_forwards
            (some (MsgBody.SetCHeaderAddr (MsgBody.GetCopy r) "0.0.0.0")))]
       else
        [.SetRSDP (some (MsgBody.GetCopy
            (MsgBody.SetCHeaderAddr (MsgBody.GetCopy r) "0.0.0.0"))),
         .Enqueue (NewCCEventUpdate req.rtime ua.origin req.reason req.max_forwards
            (some (MsgBody.SetCHeaderAddr (MsgBody.GetCopy r) "0.0.0.0")))]) := by
  cases hh : ua.has_on_remote_sdp_change <;>
  simp [UaStateConnected.RecvRequest, UaStateConnected.RecvRequest_update, hm, hb, hr, hp,
    hh, newCalls, UA.SetUasResp, UA.SendResponse, UA.OnRemoteSdpChange, UA.SetRSDP,
    UA.Enqueue, UA.call, SipRequest.GenResponse]

/-- C7, at a body-less re-INVITE on the sample leg (no hook registered): the
event carries the remote SDP with connection address "0.0.0.0". -/
theorem C7_bodyless_invite_hold_witness :
    (UaStateConnected.RecvRequest ua0 inviteNoBody).1 = .Returned (some .UasStateUpdating) ∧
    newCalls ua0 (UaStateConnected.RecvRequest ua0 inviteNoBody).2 =
      [.SetUasResp { scode := 100, reason := "Trying", body := none, server := "b2bua" },
       .SendResponse { scode := 100, reason := "Trying", body := none, server := "b2bua" },
       .SetRSDP (some { sdpRemote with c_addr := "0.0.0.0" }),
       .Enqueue (.Update (some (NewSipMaxForwards 70))
         (some { sdpRemote with c_addr := "0.0.0.0" })
         { rtime := ⟨50⟩, origin := "caller", reason := none, extra_headers := [] })] :=
  C7_bodyless_invite_hold ua0 inviteNoBody sdpRemote rfl rfl rfl rfl

end RecvRequestInvite

section RecvEventDisconnect

variable {B : Type} [MsgBody B]

/-- C8 (as stated, refuted): on the sample leg, whose local address is
"Alice" <sip:alice@example.com>, a Disconnect redirecting to Bob starts a REFER
whose Referred-By address has the local URL but an empty display name, so it is
not the leg's local address. -/
theorem C8_referred_by_counterexample :
    newCalls ua0 (UaStateConnected.RecvEvent ua0 disconnectToBob).2 =
      [.GenRequest "REFER" none [],
       .IncLCSeq,
       .BeginNewClientTransaction
         { method := "REFER", body := none, extra_headers := [],
           appended :=
             [.ReferTo { sipAddressHF := { body := .ok addrBob } },
              .ReferredBy
                { normalName := "Referred-By",
                  sipAddressHF :=
                    { body := .ok { name := "", url := "sip:alice@example.com" } } }] }
         true,
       .CancelCreditTimer,
       .SetDisconnectTs ⟨60⟩] ∧
    ua0.l_uri.GetBody = .ok { name := "Alice", url := "sip:alice@example.com" } ∧
    (Res.ok { name := "", url := "sip:alice@example.com" } : Res SipAddress) ≠
      ua0.l_uri.GetBody := by
  decide

/-- C8 (amended): for every Disconnect or Redirect event with redirect target
`target`, on a leg with `ShouldUseRefer()` true, whose request generation succeeds
and whose local URI parses to `lUri`, `RecvEvent` starts one client transaction,
with the redirect controller, for a REFER request that carries a Refer-To header
holding `target` and a Referred-By header holding the address with empty display
name and the URL of `lUri`; the next state is Disconnected. -/
theorem C8_refer_transfer (ua : UA B) (event : CCEvent B) (target lUri : SipAddress)
    (g : CCEventGeneric)
    (hev : event = .Disconnect (some target) g ∨ event = .Redirect (some target) g)
    (hrefer : ua.should_use_refer = true) (hg : ua.gen_request_err = none)
    (hl : ua.l_uri.GetBody = .ok lUri) :
    (UaStateConnected.RecvEvent ua event).1 =
      .ok (some (.UaStateDisconnected g.rtime g.origin 0 none)) ∧
    newCalls ua (UaStateConnected.RecvEvent ua event).2 =
      [.GenRequest "REFER" none g.extra_headers,
       .IncLCSeq,
       .BeginNewClientTransaction
         { method := "REFER", body := none, extra_headers := g.extra_headers,
           appended :=
             [.ReferTo (NewSipReferTo target),
              .ReferredBy (NewSipReferredBy (NewSipAddress "" lUri.url))] }
         true,
       .CancelCreditTimer,
       .SetDisconnectTs g.rtime] ∧
    (NewSipReferTo target).sipAddressHF.GetBody = .ok target ∧
    (NewSipReferredBy (NewSipAddress "" lUri.url)).sipAddressHF.GetBody =
      .ok { name := "", url := lUri.url } ∧
    (NewSipReferredBy (NewSipAddress "" lUri.url)).normalName = "Referred-By" := by
  have hl2 : ua.l_uri.body = .ok lUri := hl
  rcases hev with rfl | rfl <;>
  simp [UaStateConnected.RecvEvent, UaStateConnected.RecvEvent_switch,
    UaStateConnected.RecvEvent_disconnected, hrefer, hg, hl2, newCalls, UA.call,
    UA.GenRequest, UA.IncLCSeq, UA.BeginNewClientTransaction, UA.CancelCreditTimer,
    UA.SetDisconnectTs, GenRequest.AppendHeader, NewSipReferTo, NewSipReferredBy,
    NewSipAddress, newSipAddressHF, sipAddressHF.GetBody, SipAddress.GetUrl,
    _sip_referred_by_name,
    CCEvent.GetRtime, CCEvent.GetOrigin, CCEvent.GetExtraHeaders, CCEvent.generic]

/-- C8 (amended), at a Redirect event towards Bob on the sample leg. -/
theorem C8_refer_transfer_witness :
    (UaStateConnected.RecvEvent ua0
        (.Redirect (some addrBob) genericWithHeader)).1 =
      .ok (some (.UaStateDisconnected ⟨30⟩ "callee" 0 none)) :=
  (C8_refer_transfer ua0 (.Redirect (some addrBob) genericWithHeader) addrBob
    { name := "Alice", url := "sip:alice@example.com" } genericWithHeader
    (Or.inr rfl) rfl rfl rfl).1

/-- C9: a Connect event delivered while the leg has no pending transaction changes
nothing: `RecvEvent` returns (nil, nil) and the leg, its record of calls
included, is exactly as before, so no timer is touched, no ACK sent, no callback
fired and no event enqueued. -/
theorem C9_connect_without_pending (ua : UA B) (scode : Int) (scode_reason : String)
    (body : Option B) (g : CCEventGeneric) (hp : ua.pending_tr = none) :
    UaStateConnected.RecvEvent ua (.Connect scode scode_reason body g) = (.ok none, ua) ∧
    newCalls ua (UaStateConnected.RecvEvent ua (.Connect scode scode_reason body g)).2 = [] := by
  simp [UaStateConnected.RecvEvent, UaStateConnected.RecvEvent_switch, hp, newCalls]

/-- C9, at a Connect event on the sample leg, which has nothing pending. -/
theorem C9_connect_without_pending_witness :
    UaStateConnected.RecvEvent ua0 connectAnswer = (.ok none, ua0) ∧
    newCalls ua0 (UaStateConnected.RecvEvent ua0 connectAnswer).2 = [] :=
  C9_connect_without_pending ua0 200 "OK" (some sdpRemote)
    { rtime := ⟨70⟩, origin := "callee", reason := none, extra_headers := [] } rfl

end RecvEventDisconnect

section RecvAck

variable {B : Type} [MsgBody B]

/-- C10: one call of `RecvACK`, whatever the ACK's body and whether or not a
remote-SDP-change hook is registered, begins with `CancelExpireTimer()`,
`StartCreditTimer(rtime)`, `SetConnectTs(rtime)`, `ConnCb(rtime, origin)` in this
order, where `rtime` is the ACK's receive time and `origin` the leg's origin; the
expire timer is canceled exactly once, the credit timer started exactly once and
the connect callback fired exactly once. -/
theorem C10_recv_ack_timers (ua : UA B) (req : SipRequest B) :
    (∃ rest, newCalls ua (UaStateConnected.RecvACK ua req) =
      [.CancelExpireTimer, .StartCreditTimer req.rtime, .SetConnectTs req.rtime,
       .ConnCb req.rtime ua.origin] ++ rest) ∧
    (newCalls ua (UaStateConnected.RecvACK ua req)).countP Call.isCancelExpireTimer = 1 ∧
    (newCalls ua (UaStateConnected.RecvACK ua req)).countP Call.isStartCreditTimer = 1 ∧
    (newCalls ua (UaStateConnected.RecvACK ua req)).countP Call.isConnCb = 1 := by
  cases hb : req.body <;> cases hh : ua.has_on_remote_sdp_change <;>
  simp [UaStateConnected.RecvACK, hb, hh, newCalls, UA.call, UA.CancelExpireTimer,
    UA.StartCreditTimer, UA.SetConnectTs, UA.ConnCb, UA.OnRemoteSdpChange, UA.SetRSDP,
    UA.Enqueue, Call.isCancelExpireTimer, Call.isStartCreditTimer, Call.isConnCb]

end RecvAck

section UpdateFastPath

variable {B : Type} [MsgBody B]

/-- C13: for every Update event whose body is non-nil and has the string form of
the leg's non-nil local SDP, `RecvEvent` returns (nil, nil) and its only call
enqueues a Connect event with code 200, reason "OK", the event's receive time and
origin, and as body a copy of the remote SDP, or nil when the remote SDP is nil;
no request is generated, no hook invoked, and the local sequence number and both
stored SDP are unchanged. -/
theorem C13_update_same_local_sdp (ua : UA B) (mf : Option SipMaxForwards) (b l : B)
    (g : CCEventGeneric) (hl : ua.lsdp = some l)
    (hs : MsgBody.String l = MsgBody.String b) :
    (UaStateConnected.RecvEvent ua (.Update mf (some b) g)).1 = .ok none ∧
    newCalls ua (UaStateConnected.RecvEvent ua (.Update mf (some b) g)).2 =
      [.Enqueue (.Connect 200 "OK" (ua.rsdp.map MsgBody.GetCopy)
        { rtime := g.rtime, origin := g.origin, reason := none, extra_headers := [] })] ∧
    (newCalls ua (UaStateConnected.RecvEvent ua (.Update mf (some b) g)).2).countP
      Call.isEnqueue = 1 ∧
    (newCalls ua (UaStateConnected.RecvEvent ua (.Update mf (some b) g)).2).countP
      Call.isGenRequest = 0 ∧
    (newCalls ua (UaStateConnected.RecvEvent ua (.Update mf (some b) g)).2).countP
      Call.isSdpHook = 0 ∧
    (UaStateConnected.RecvEvent ua (.Update mf (some b) g)).2.lcseq = ua.lcseq ∧
    (UaStateConnected.RecvEvent ua (.Update mf (some b) g)).2.lsdp = ua.lsdp ∧
    (UaStateConnected.RecvEvent ua (.Update mf (some b) g)).2.rsdp = ua.rsdp := by
  have hfast : UaStateConnected.same_as_lsdp ua (some b) = true := by
    simp [UaStateConnected.same_as_lsdp, hl, hs]
  cases hr : ua.rsdp <;>
  simp [UaStateConnected.RecvEvent, UaStateConnected.RecvEvent_switch, hfast, hr, newCalls,
    UA.Enqueue, UA.call, NewCCEventConnect, CCEvent.GetRtime, CCEvent.GetOrigin,
    CCEvent.generic, Call.isEnqueue, Call.isGenRequest, Call.isSdpHook]

/-- C13, at an Update event repeating the sample leg's local SDP. -/
theorem C13_update_same_local_sdp_witness :
    (UaStateConnected.RecvEvent ua0 updSameBodyNoHops).1 = .ok none ∧
    newCalls ua0 (UaStateConnected.RecvEvent ua0 updSameBodyNoHops).2 =
      [.Enqueue (.Connect 200 "OK" (some sdpRemote)
        { rtime := ⟨30⟩, origin := "callee", reason := none, extra_headers := [] })] :=
  ⟨(C13_update_same_local_sdp ua0 (some (NewSipMaxForwards 0)) sdpLocal sdpLocal
      { rtime := ⟨30⟩, origin := "callee", reason := none, extra_headers := [] } rfl rfl).1,
   (C13_update_same_local_sdp ua0 (some (NewSipMaxForwards 0)) sdpLocal sdpLocal
      { rtime := ⟨30⟩, origin := "callee", reason := none, extra_headers := [] } rfl rfl).2.1⟩

end UpdateFastPath

section InviteNewBody

variable {B : Type} [MsgBody B]

end InviteNewBody

section ConnectPending

variable {B : Type} [MsgBody B]

/-- C15: for every Connect event delivered while a transaction `tr` is pending,
`RecvEvent` returns (nil, nil).  When the local-SDP-change hook does not apply,
its calls are, in order: cancel the expire timer, start the credit timer, set
the connect timestamp, set the local SDP to the event's body, set that body on
the pending transaction's ACK, send the ACK (once), clear the pending
transaction, fire the connect callback (once).  When the hook applies, the calls
are the expire-timer cancel and the hook invocation only, and the pending
transaction stays. -/
theorem C15_connect_with_pending (ua : UA B) (scode : Int) (scode_reason : String)
    (body : Option B) (g : CCEventGeneric) (tr : ClientTransaction B)
    (hp : ua.pending_tr = some tr) :
    (UaStateConnected.RecvEvent ua (.Connect scode scode_reason body g)).1 = .ok none ∧
    (UaStateConnected.local_hook_body ua body = none →
      newCalls ua (UaStateConnected.RecvEvent ua (.Connect scode scode_reason body g)).2 =
        [.CancelExpireTimer,
         .StartCreditTimer g.rtime,
         .SetConnectTs g.rtime,
         .SetLSDP body,
         .AckSetBody body,
         .SendACK { tr with ack_body := body },
         .SetPendingTr none,
         .ConnCb g.rtime ua.origin] ∧
      (UaStateConnected.RecvEvent ua (.Connect scode scode_reason body g)).2.connect_ts =
        some g.rtime ∧
      (UaStateConnected.RecvEvent ua (.Connect scode scode_reason body g)).2.lsdp = body ∧
      (UaStateConnected.RecvEvent ua (.Connect scode scode_reason body g)).2.pending_tr =
        none ∧
      (newCalls ua (UaStateConnected.RecvEvent ua
        (.Connect scode scode_reason body g)).2).countP Call.isSendACK = 1 ∧
      (newCalls ua (UaStateConnected.RecvEvent ua
        (.Connect scode scode_reason body g)).2).countP Call.isConnCb = 1) ∧
    (∀ b, UaStateConnected.local_hook_body ua body = some b →
      newCalls ua (UaStateConnected.RecvEvent ua (.Connect scode scode_reason body g)).2 =
        [.CancelExpireTimer, .OnLocalSdpChange b (.Connect scode scode_reason body g)] ∧
      (UaStateConnected.RecvEvent ua (.Connect scode scode_reason body g)).2.pending_tr =
        some tr) := by
  cases body with
  | none =>
    simp [UaStateConnected.RecvEvent, UaStateConnected.RecvEvent_switch,
      UaStateConnected.local_hook_body, hp, newCalls,
      UA.call, UA.CancelExpireTimer, UA.StartCreditTimer, UA.SetConnectTs, UA.SetLSDP,
      UA.AckSetBody, UA.SendACK, UA.SetPendingTr, UA.ConnCb, UA.OnLocalSdpChange,
      CCEvent.GetRtime, CCEvent.generic, Call.isSendACK, Call.isConnCb]
  | some b =>
  cases hh : ua.has_on_local_sdp_change <;> cases hn : MsgBody.NeedsUpdate b <;>
  simp [UaStateConnected.RecvEvent, UaStateConnected.RecvEvent_switch,
    UaStateConnected.local_hook_body, hp, hh, hn, newCalls,
    UA.call, UA.CancelExpireTimer, UA.StartCreditTimer, UA.SetConnectTs, UA.SetLSDP,
    UA.AckSetBody, UA.SendACK, UA.SetPendingTr, UA.ConnCb, UA.OnLocalSdpChange,
    CCEvent.GetRtime, CCEvent.generic, Call.isSendACK, Call.isConnCb]

/-- C15, at a Connect event on the sample leg with a pending transaction. -/
theorem C15_connect_with_pending_witness :
    (UaStateConnected.RecvEvent uaPending connectAnswer).1 = .ok none ∧
    newCalls uaPending (UaStateConnected.RecvEvent uaPending connectAnswer).2 =
      [.CancelExpireTimer,
       .StartCreditTimer ⟨70⟩,
       .SetConnectTs ⟨70⟩,
       .SetLSDP (some sdpRemote),
       .AckSetBody (some sdpRemote),
       .SendACK { id := 7, ack_body := some sdpRemote },
       .SetPendingTr none,
       .ConnCb ⟨70⟩ "caller"] :=
  ⟨(C15_connect_with_pending uaPending 200 "OK" (some sdpRemote)
      { rtime := ⟨70⟩, origin := "callee", reason := none, extra_headers := [] }
      { id := 7, ack_body := none } rfl).1,
   ((C15_connect_with_pending uaPending 200 "OK" (some sdpRemote)
      { rtime := ⟨70⟩, origin := "callee", reason := none, extra_headers := [] }
      { id := 7, ack_body := none } rfl).2.1 rfl).1⟩

end ConnectPending

section StateChange

variable {B : Type}

/-- C16: after `OnStateChange`, whatever the state was before, the leg has no
pending transaction and the keepalive handle is nil; the calls made are the
cancel of the keepalive transaction if one was live, then the ACK of the pending
transaction and its clearing if one existed, then the cancel of the expire
timer, so the expire timer is canceled exactly once, the ACK sent once exactly
when a transaction was pending and the keepalive canceled once exactly when it
was live; a second `OnStateChange` sends no ACK and cancels no keepalive. -/
theorem C16_on_state_change (self : UaStateConnected B) :
    (UaStateConnected.OnStateChange self).ua.pending_tr = none ∧
    (UaStateConnected.OnStateChange self).ka_tr = none ∧
    newCalls self.ua (UaStateConnected.OnStateChange self).ua =
      (match self.ka_tr with
        | some ka => [.Cancel ka]
        | none => []) ++
      (match self.ua.pending_tr with
        | some tr => [.SendACK tr, .SetPendingTr none]
        | none => []) ++
      [.CancelExpireTimer] ∧
    (newCalls self.ua (UaStateConnected.OnStateChange self).ua).countP
      Call.isCancelExpireTimer = 1 ∧
    (newCalls self.ua (UaStateConnected.OnStateChange self).ua).countP Call.isSendACK =
      (if self.ua.pending_tr.isSome then 1 else 0) ∧
    (newCalls self.ua (UaStateConnected.OnStateChange self).ua).countP Call.isCancel =
      (if self.ka_tr.isSome then 1 else 0) ∧
    (newCalls (UaStateConnected.OnStateChange self).ua
      (UaStateConnected.OnStateChange (UaStateConnected.OnStateChange self)).ua).countP
        Call.isSendACK = 0 ∧
    (newCalls (UaStateConnected.OnStateChange self).ua
      (UaStateConnected.OnStateChange (UaStateConnected.OnStateChange self)).ua).countP
        Call.isCancel = 0 := by
  cases hk : self.ka_tr <;> cases hp : self.ua.pending_tr <;>
  simp [UaStateConnected.OnStateChange, hk, hp, newCalls, UA.call, UA.Cancel, UA.SendACK,
    UA.SetPendingTr, UA.CancelExpireTimer, Call.isCancelExpireTimer, Call.isSendACK,
    Call.isCancel]

end StateChange

section StateChangeSample

/-- C16, at a state with a live keepalive and a pending transaction: the keepalive
is canceled, the ACK sent, the pending transaction cleared and the expire timer
canceled, in this order. -/
theorem C16_on_state_change_witness :
    newCalls stateBusy.ua (UaStateConnected.OnStateChange stateBusy).ua =
      [.Cancel { id := 9, ack_body := none },
       .SendACK { id := 7, ack_body := none },
       .SetPendingTr none,
       .CancelExpireTimer] :=
  (C16_on_state_change stateBusy).2.2.1

end StateChangeSample

section ParseFailure

variable {B : Type} [MsgBody B]

/-- C17: when the Refer-To body of a REFER, or the first Also body of a BYE, fails
to parse with error `err`, `RecvRequest` returns nil and its calls are the response
sent before the parse (202 Accepted for REFER, 200 OK for BYE) and the error
log entry: no further response, no event enqueued or delivered, no credit-timer
cancel, and the disconnect timestamp is left as it was. -/
theorem C17_header_parse_failure (ua : UA B) (req : SipRequest B) (hf : sipAddressHF)
    (err : String) (hb : hf.GetBody = .error err) :
    (req.method = "REFER" → req.refer_to = some hf →
      (UaStateConnected.RecvRequest ua req).1 = .Returned none ∧
      newCalls ua (UaStateConnected.RecvRequest ua req).2 =
        [.SendResponse
           { scode := 202, reason := "Accepted", body := none, server := ua.local_ua },
         .Error ("UaStateConnected::RecvRequest: #1: " ++ err)] ∧
      (newCalls ua (UaStateConnected.RecvRequest ua req).2).countP Call.isResponse = 1 ∧
      (newCalls ua (UaStateConnected.RecvRequest ua req).2).countP Call.isEvent = 0 ∧
      (newCalls ua (UaStateConnected.RecvRequest ua req).2).countP
        Call.isCancelCreditTimer = 0 ∧
      (UaStateConnected.RecvRequest ua req).2.disconnect_ts = ua.disconnect_ts) ∧
    (req.method = "BYE" → req.also.head? = some hf →
      (UaStateConnected.RecvRequest ua req).1 = .Returned none ∧
      newCalls ua (UaStateConnected.RecvRequest ua req).2 =
        [.SendResponse { scode := 200, reason := "OK", body := none, server := ua.local_ua },
         .Error ("UaStateConnected::RecvRequest: #3: " ++ err)] ∧
      (newCalls ua (UaStateConnected.RecvRequest ua req).2).countP Call.isResponse = 1 ∧
      (newCalls ua (UaStateConnected.RecvRequest ua req).2).countP Call.isEvent = 0 ∧
      (newCalls ua (UaStateConnected.RecvRequest ua req).2).countP
        Call.isCancelCreditTimer = 0 ∧
      (UaStateConnected.RecvRequest ua req).2.disconnect_ts = ua.disconnect_ts) := by
  constructor
  · intro hm ht
    simp [UaStateConnected.RecvRequest, hm, ht, hb, newCalls, UA.SendResponse, UA.Error,
      UA.call, SipRequest.GenResponse, Call.isResponse, Call.isEvent,
      Call.isCancelCreditTimer]
  · intro hm ht
    cases hal : req.also with
    | nil => simp [hal] at ht
    | cons hf2 rest =>
      have h2 : hf2 = hf := by simpa [hal] using ht
      subst h2
      simp [UaStateConnected.RecvRequest, hm, hal, hb, newCalls, UA.SendResponse, UA.Error,
        UA.call, SipRequest.GenResponse, Call.isResponse, Call.isEvent,
        Call.isCancelCreditTimer]

/-- C17, at a REFER whose Refer-To header does not parse, on the sample leg. -/
theorem C17_header_parse_failure_witness :
    (UaStateConnected.RecvRequest ua0 referBadTarget).1 = .Returned none ∧
    newCalls ua0 (UaStateConnected.RecvRequest ua0 referBadTarget).2 =
      [.SendResponse { scode := 202, reason := "Accepted", body := none, server := "b2bua" },
       .Error "UaStateConnected::RecvRequest: #1: bad address"] :=
  ⟨((C17_header_parse_failure ua0 referBadTarget { body := .error "bad address" }
      "bad address" rfl).1 rfl rfl).1,
   ((C17_header_parse_failure ua0 referBadTarget { body := .error "bad address" }
      "bad address" rfl).1 rfl rfl).2.1⟩

end ParseFailure

section UpdateHook

variable {B : Type} [MsgBody B]

/-- C18: for every Update event whose body `b` is non-nil, does not have the string
form of the local SDP, and needs an update while a local-SDP-change hook is
registered, `RecvEvent` invokes the hook with `b` and the event, returns
(nil, nil), generates no request and leaves the local SDP and the local sequence
number as they were; if the hook returns an error it then enqueues one Fail
event with code 400, reason "Malformed SDP Body" and the error's text as
warning, and if the hook returns no error nothing is enqueued. -/
theorem C18_update_hook (ua : UA B) (mf : Option SipMaxForwards) (b : B)
    (g : CCEventGeneric)
    (hfast : UaStateConnected.same_as_lsdp ua (some b) = false)
    (hh : ua.has_on_local_sdp_change = true) (hn : MsgBody.NeedsUpdate b = true) :
    (UaStateConnected.RecvEvent ua (.Update mf (some b) g)).1 = .ok none ∧
    newCalls ua (UaStateConnected.RecvEvent ua (.Update mf (some b) g)).2 =
      .OnLocalSdpChange b (.Update mf (some b) g) ::
        (match ua.on_local_sdp_change_err with
          | some err =>
            [.Enqueue (.Fail 400 "Malformed SDP Body" (some err)
              { rtime := g.rtime, origin := "", reason := none, extra_headers := [] })]
          | none => []) ∧
    (newCalls ua (UaStateConnected.RecvEvent ua (.Update mf (some b) g)).2).countP
      Call.isEnqueue = (if ua.on_local_sdp_change_err.isSome then 1 else 0) ∧
    (newCalls ua (UaStateConnected.RecvEvent ua (.Update mf (some b) g)).2).countP
      Call.isGenRequest = 0 ∧
    (UaStateConnected.RecvEvent ua (.Update mf (some b) g)).2.lsdp = ua.lsdp ∧
    (UaStateConnected.RecvEvent ua (.Update mf (some b) g)).2.lcseq = ua.lcseq := by
  cases he : ua.on_local_sdp_change_err <;>
  simp [UaStateConnected.RecvEvent, UaStateConnected.RecvEvent_switch,
    UaStateConnected.local_hook_body, hfast, hh, hn, he, newCalls, UA.call,
    UA.OnLocalSdpChange, UA.Enqueue, NewCCEventFail, CCEvent.SetWarning, CCEvent.GetRtime,
    CCEvent.generic, Call.isEnqueue, Call.isGenRequest]

/-- C18, on the sample leg with a rejecting hook: the hook is invoked and a Fail
400 with the hook's error as warning is enqueued. -/
theorem C18_update_hook_witness :
    newCalls uaLocalHook (UaStateConnected.RecvEvent uaLocalHook
        (.Update none (some sdpNeedsUpdate) genericWithHeader)).2 =
      [.OnLocalSdpChange sdpNeedsUpdate (.Update none (some sdpNeedsUpdate) genericWithHeader),
       .Enqueue (.Fail 400 "Malformed SDP Body" (some "bad codec")
         { rtime := ⟨30⟩, origin := "", reason := none, extra_headers := [] })] :=
  (C18_update_hook uaLocalHook none sdpNeedsUpdate genericWithHeader (by decide) rfl rfl).2.1

end UpdateHook

section InviteRemoteSdp

variable {B : Type} [MsgBody B]

/-- C20: `RecvRequest` calls a method on the leg's remote SDP in both INVITE
branches.  On a leg whose remote SDP is non-nil no request makes it stop at a nil
dereference; on a leg whose remote SDP is nil every INVITE, with or without
body, stops at the nil dereference after 100 Trying has been stored and sent,
with no event enqueued or delivered and no state returned. -/
theorem C20_invite_remote_sdp (ua : UA B) (req : SipRequest B) :
    (ua.rsdp ≠ none → (UaStateConnected.RecvRequest ua req).1 ≠ .NilDereference) ∧
    (req.method = "INVITE" → ua.rsdp = none →
      (UaStateConnected.RecvRequest ua req).1 = .NilDereference ∧
      newCalls ua (UaStateConnected.RecvRequest ua req).2 =
        [.SetUasResp { scode := 100, reason := "Trying", body := none, server := ua.local_ua },
         .SendResponse
           { scode := 100, reason := "Trying", body := none, server := ua.local_ua }] ∧
      (newCalls ua (UaStateConnected.RecvRequest ua req).2).countP Call.isEvent = 0) := by
  constructor
  · intro hr
    obtain ⟨r, hr⟩ := Option.ne_none_iff_exists'.mp hr
    unfold UaStateConnected.RecvRequest UaStateConnected.RecvRequest_update
    simp only [UA.SetUasResp, UA.SendResponse, UA.call, hr]
    repeat' split
    all_goals simp
  · intro hm hr
    cases hb : req.body <;>
    simp [UaStateConnected.RecvRequest, hm, hb, hr, newCalls, UA.SetUasResp,
      UA.SendResponse, UA.call, SipRequest.GenResponse, Call.isEvent]

/-- C20, at a body-less INVITE on the sample leg without a remote SDP. -/
theorem C20_invite_remote_sdp_witness :
    (UaStateConnected.RecvRequest uaNoRsdp inviteNoBody).1 = .NilDereference ∧
    (UaStateConnected.RecvRequest ua0 inviteNoBody).1 ≠ .NilDereference :=
  ⟨((C20_invite_remote_sdp uaNoRsdp inviteNoBody).2 rfl rfl).1,
   (C20_invite_remote_sdp ua0 inviteNoBody).1 (by decide)⟩

end InviteRemoteSdp

section RecvEventErrors

variable {B : Type} [MsgBody B]

/-- C11 (as stated, refuted): on a leg whose `PrepTr` fails, an Update event with a
new offer makes `RecvEvent` return the error after the local sequence number
went from 1 to 2 and the stored local SDP was replaced by the offer; and on a
leg whose local URI does not parse, a Disconnect event redirecting to Bob makes
it return the error after the local sequence number went from 1 to 2. -/
theorem C11_late_error_counterexample :
    (UaStateConnected.RecvEvent uaPrepFails updNewOffer).1 = .error "no transport" ∧
    uaPrepFails.lcseq = 1 ∧
    (UaStateConnected.RecvEvent uaPrepFails updNewOffer).2.lcseq = 2 ∧
    uaPrepFails.lsdp = some sdpLocal ∧
    (UaStateConnected.RecvEvent uaPrepFails updNewOffer).2.lsdp = some sdpOffer ∧
    (UaStateConnected.RecvEvent uaBadLocalUri disconnectToBob).1 = .error "bad local uri" ∧
    uaBadLocalUri.lcseq = 1 ∧
    (UaStateConnected.RecvEvent uaBadLocalUri disconnectToBob).2.lcseq = 2 := by
  decide

/-- C11 (amended): whenever `RecvEvent` returns an error (the Go result is then
`nil, err`: no next state), the pending and the client transaction are
unchanged, no transaction has been started and the credit timer has not been
canceled; the local sequence number is unchanged when the error comes from
request generation or from the Max-Forwards body (request generation failed, or
was never called); and the stored local SDP is unchanged when the error comes
from request generation, from the local URI or from the Max-Forwards body
(`PrepTr` was not called). -/
theorem C11_error_return (ua : UA B) (event : CCEvent B) (err : String)
    (h : (UaStateConnected.RecvEvent ua event).1 = .error err) :
    (UaStateConnected.RecvEvent ua event).2.pending_tr = ua.pending_tr ∧
    (UaStateConnected.RecvEvent ua event).2.client_tr = ua.client_tr ∧
    (newCalls ua (UaStateConnected.RecvEvent ua event).2).countP
      Call.isBeginTransaction = 0 ∧
    (newCalls ua (UaStateConnected.RecvEvent ua event).2).countP
      Call.isCancelCreditTimer = 0 ∧
    (ua.gen_request_err ≠ none ∨
      (newCalls ua (UaStateConnected.RecvEvent ua event).2).countP Call.isGenRequest = 0 →
        (UaStateConnected.RecvEvent ua event).2.lcseq = ua.lcseq) ∧
    ((newCalls ua (UaStateConnected.RecvEvent ua event).2).countP Call.isPrepTr = 0 →
      (UaStateConnected.RecvEvent ua event).2.lsdp = ua.lsdp) := by
  cases event with
  | Disconnect redirect g =>
    cases redirect <;> cases hs : ua.should_use_refer <;> cases hg : ua.gen_request_err <;>
    cases hl : ua.l_uri.body <;>
    simp [UaStateConnected.RecvEvent, UaStateConnected.RecvEvent_switch,
      UaStateConnected.RecvEvent_disconnected, hs, hg, hl, newCalls, UA.call, UA.GenRequest,
      UA.IncLCSeq, UA.BeginNewClientTransaction, UA.CancelCreditTimer, UA.SetDisconnectTs,
      sipAddressHF.GetBody, Call.isGenRequest, Call.isPrepTr, Call.isBeginTransaction,
      Call.isCancelCreditTimer] at h ⊢
  | Redirect redirect g =>
    cases redirect <;> cases hs : ua.should_use_refer <;> cases hg : ua.gen_request_err <;>
    cases hl : ua.l_uri.body <;>
    simp [UaStateConnected.RecvEvent, UaStateConnected.RecvEvent_switch,
      UaStateConnected.RecvEvent_disconnected, hs, hg, hl, newCalls, UA.call, UA.GenRequest,
      UA.IncLCSeq, UA.BeginNewClientTransaction, UA.CancelCreditTimer, UA.SetDisconnectTs,
      sipAddressHF.GetBody, Call.isGenRequest, Call.isPrepTr, Call.isBeginTransaction,
      Call.isCancelCreditTimer] at h ⊢
  | Fail c r w g =>
    cases hs : ua.should_use_refer <;> cases hg : ua.gen_request_err <;>
    simp [UaStateConnected.RecvEvent, UaStateConnected.RecvEvent_switch,
      UaStateConnected.RecvEvent_disconnected, hs, hg, newCalls, UA.call, UA.GenRequest,
      UA.IncLCSeq, UA.BeginNewClientTransaction, UA.CancelCreditTimer, UA.SetDisconnectTs,
      Call.isGenRequest, Call.isPrepTr, Call.isBeginTransaction, Call.isCancelCreditTimer] at h ⊢
  | Update mf body g =>
    cases hf : UaStateConnected.same_as_lsdp ua body
    case true =>
      cases hr : ua.rsdp <;>
      simp [UaStateConnected.RecvEvent, UaStateConnected.RecvEvent_switch, hf, hr] at h
    case false =>
      cases hh : UaStateConnected.local_hook_body ua body
      case some b =>
        cases ho : ua.on_local_sdp_change_err <;>
        simp [UaStateConnected.RecvEvent, UaStateConnected.RecvEvent_switch, hf, hh, ho] at h
      case none =>
        cases mf with
        | none =>
          cases hg : ua.gen_request_err <;> cases hp : ua.prep_tr <;>
          simp [UaStateConnected.RecvEvent, UaStateConnected.RecvEvent_switch,
            UaStateConnected.RecvEvent_invite, hf, hh, hg, hp, newCalls, UA.call,
            UA.GenRequest, UA.IncLCSeq, UA.SetLSDP, UA.PrepTr, UA.SetClientTransaction,
            UA.BeginClientTransaction, Call.isGenRequest, Call.isPrepTr, Call.isBeginTransaction,
            Call.isCancelCreditTimer] at h ⊢
        | some mf =>
          cases hm : mf.body with
          | error e =>
            simp [UaStateConnected.RecvEvent, UaStateConnected.RecvEvent_switch, hf, hh, hm,
              SipMaxForwards.GetBody, newCalls]
          | ok n =>
            by_cases hn : n.Number ≤ 0 <;>
            cases hg : ua.gen_request_err <;> cases hp : ua.prep_tr <;>
            simp [UaStateConnected.RecvEvent, UaStateConnected.RecvEvent_switch,
              UaStateConnected.RecvEvent_invite, hf, hh, hm, hn, hg, hp,
              SipMaxForwards.GetBody, newCalls, UA.call, UA.Enqueue,
              UA.GenRequest, UA.IncLCSeq, UA.SetLSDP, UA.PrepTr, UA.SetClientTransaction,
              UA.BeginClientTransaction, Call.isGenRequest, Call.isPrepTr, Call.isBeginTransaction,
              Call.isCancelCreditTimer] at h ⊢
  | Info body g =>
    cases hg : ua.gen_request_err <;>
    simp [UaStateConnected.RecvEvent, UaStateConnected.RecvEvent_switch, hg, newCalls,
      UA.call, UA.GenRequest, UA.IncLCSeq, UA.BeginNewClientTransaction, Call.isGenRequest,
      Call.isBeginTransaction, Call.isCancelCreditTimer] at h ⊢
  | Connect c r body g =>
    cases hp : ua.pending_tr
    case none =>
      simp [UaStateConnected.RecvEvent, UaStateConnected.RecvEvent_switch, hp] at h
    case some tr =>
      cases hk : UaStateConnected.local_hook_body ua.CancelExpireTimer body <;>
      simp [UaStateConnected.RecvEvent, UaStateConnected.RecvEvent_switch, hp, hk] at h
  | Other g =>
    simp [UaStateConnected.RecvEvent, UaStateConnected.RecvEvent_switch] at h

/-- C11 (amended), on the sample leg with failing request generation, where the
Disconnect event ends in the error and leaves the sequence number, and on the
sample leg with an unparsable local URI, where it ends in the error and leaves
the local SDP. -/
theorem C11_error_return_witness :
    (UaStateConnected.RecvEvent uaGenFails disconnectToBob).1 = .error "no route" ∧
    (UaStateConnected.RecvEvent uaGenFails disconnectToBob).2.lcseq = 1 ∧
    (UaStateConnected.RecvEvent uaBadLocalUri disconnectToBob).1 = .error "bad local uri" ∧
    (UaStateConnected.RecvEvent uaBadLocalUri disconnectToBob).2.lsdp = some sdpLocal :=
  ⟨rfl,
   (C11_error_return uaGenFails disconnectToBob "no route" rfl).2.2.2.2.1
     (Or.inl (by decide)),
   rfl,
   (C11_error_return uaBadLocalUri disconnectToBob "bad local uri" rfl).2.2.2.2.2
     (by decide)⟩

end RecvEventErrors

section RecvEventTeardown

variable {B : Type} [MsgBody B]

/-- C12 (as stated, refuted): on a leg whose local URI does not parse, a Disconnect
event redirecting to Bob, with request generation succeeding, ends in an error
after the REFER was generated: no client transaction is started and the credit
timer is not canceled. -/
theorem C12_lost_transfer_counterexample :
    (UaStateConnected.RecvEvent uaBadLocalUri disconnectToBob).1 = .error "bad local uri" ∧
    uaBadLocalUri.gen_request_err = none ∧
    newCalls uaBadLocalUri (UaStateConnected.RecvEvent uaBadLocalUri disconnectToBob).2 =
      [.GenRequest "REFER" none [], .IncLCSeq] ∧
    (newCalls uaBadLocalUri
      (UaStateConnected.RecvEvent uaBadLocalUri disconnectToBob).2).countP
        Call.isBeginTransaction = 0 ∧
    (newCalls uaBadLocalUri
      (UaStateConnected.RecvEvent uaBadLocalUri disconnectToBob).2).countP
        Call.isCancelCreditTimer = 0 := by
  decide

/-- C12 (amended): for every Disconnect, Redirect or Fail event (the type switch
answers `true` with redirect `redirect`, which is nil for a Fail event) for which
request generation succeeds and, when a REFER is due, the local URI parses,
`RecvEvent` generates one request, bumps the sequence number, starts exactly one
client transaction for that request, cancels the credit timer exactly once, sets
the disconnect timestamp to the event's receive time and returns Disconnected.
The request is a REFER exactly when the redirect is non-nil and
`ShouldUseRefer()` is true, and a BYE otherwise; the BYE carries one Also header,
holding the redirect, when the redirect is non-nil and no header otherwise. -/
theorem C12_disconnect_request (ua : UA B) (event : CCEvent B) (redirect : Option SipAddress)
    (hsw : UaStateConnected.RecvEvent_switch event = (true, redirect))
    (hg : ua.gen_request_err = none)
    (hl : redirect ≠ none → ua.should_use_refer = true →
      ∃ lUri, ua.l_uri.GetBody = .ok lUri) :
    ∃ (req : GenRequest B) (controller : Bool),
      (UaStateConnected.RecvEvent ua event).1 =
        .ok (some (.UaStateDisconnected event.GetRtime event.GetOrigin 0 none)) ∧
      newCalls ua (UaStateConnected.RecvEvent ua event).2 =
        [.GenRequest req.method none event.GetExtraHeaders,
         .IncLCSeq,
         .BeginNewClientTransaction req controller,
         .CancelCreditTimer,
         .SetDisconnectTs event.GetRtime] ∧
      (req.method = "REFER" ∨ req.method = "BYE") ∧
      (req.method = "REFER" ↔ redirect ≠ none ∧ ua.should_use_refer = true) ∧
      (req.method = "BYE" →
        req.appended =
          (redirect.map fun target => SipHeader.Also (NewSipAlso target)).toList) ∧
      (∀ target, (NewSipAlso target).sipAddressHF.GetBody = .ok target) ∧
      (∀ c r w g, event = .Fail c r w g → redirect = none) ∧
      (newCalls ua (UaStateConnected.RecvEvent ua event).2).countP
        Call.isBeginTransaction = 1 ∧
      (newCalls ua (UaStateConnected.RecvEvent ua event).2).countP
        Call.isCancelCreditTimer = 1 ∧
      (UaStateConnected.RecvEvent ua event).2.disconnect_ts = some event.GetRtime := by
  have hfail : ∀ c r w g, event = CCEvent.Fail c r w g → redirect = none := by
    intro c r w g he
    subst he
    simp [UaStateConnected.RecvEvent_switch] at hsw
    exact hsw.symm
  cases redirect with
  | none =>
    refine ⟨{ method := "BYE", body := none, extra_headers := event.GetExtraHeaders,
              appended := [] }, false, ?_⟩
    by_cases hs : ua.should_use_refer = true
    · simp [UaStateConnected.RecvEvent, UaStateConnected.RecvEvent_disconnected, hsw, hg, hs,
        newCalls, UA.call, UA.GenRequest, UA.IncLCSeq, UA.BeginNewClientTransaction,
        UA.CancelCreditTimer, UA.SetDisconnectTs, NewSipAlso, newSipAddressHF,
        sipAddressHF.GetBody, Call.isBeginTransaction, Call.isCancelCreditTimer]
    · have hs2 : ua.should_use_refer = false := by simpa using hs
      simp [UaStateConnected.RecvEvent, UaStateConnected.RecvEvent_disconnected, hsw, hg, hs2,
        newCalls, UA.call, UA.GenRequest, UA.IncLCSeq, UA.BeginNewClientTransaction,
        UA.CancelCreditTimer, UA.SetDisconnectTs, NewSipAlso, newSipAddressHF,
        sipAddressHF.GetBody, Call.isBeginTransaction, Call.isCancelCreditTimer]
  | some target =>
    by_cases hs : ua.should_use_refer = true
    · obtain ⟨lUri, hlu⟩ := hl (by simp) hs
      have hlu2 : ua.l_uri.body = .ok lUri := hlu
      refine ⟨{ method := "REFER", body := none, extra_headers := event.GetExtraHeaders,
                appended := [.ReferTo (NewSipReferTo target),
                  .ReferredBy (NewSipReferredBy (NewSipAddress "" lUri.GetUrl))] }, true, ?_⟩
      simp [UaStateConnected.RecvEvent, UaStateConnected.RecvEvent_disconnected, hsw, hg, hs,
        hlu2, newCalls, UA.call, UA.GenRequest, UA.IncLCSeq, UA.BeginNewClientTransaction,
        UA.CancelCreditTimer, UA.SetDisconnectTs, GenRequest.AppendHeader, NewSipAlso,
        newSipAddressHF, sipAddressHF.GetBody, Call.isBeginTransaction,
        Call.isCancelCreditTimer]
      exact fun c r w g he => by simpa using hfail c r w g he
    · have hs2 : ua.should_use_refer = false := by simpa using hs
      refine ⟨{ method := "BYE", body := none, extra_headers := event.GetExtraHeaders,
                appended := [.Also (NewSipAlso target)] }, false, ?_⟩
      simp [UaStateConnected.RecvEvent, UaStateConnected.RecvEvent_disconnected, hsw, hg, hs2,
        newCalls, UA.call, UA.GenRequest, UA.IncLCSeq, UA.BeginNewClientTransaction,
        UA.CancelCreditTimer, UA.SetDisconnectTs, GenRequest.AppendHeader, NewSipAlso,
        newSipAddressHF, sipAddressHF.GetBody, Call.isBeginTransaction,
        Call.isCancelCreditTimer]
      exact fun c r w g he => by simpa using hfail c r w g he

/-- C12 (amended), at a Fail event on the sample leg: one BYE transaction, one
credit-timer cancel, Disconnected. -/
theorem C12_disconnect_request_witness :
    (UaStateConnected.RecvEvent ua0 failServerError).1 =
      .ok (some (.UaStateDisconnected ⟨80⟩ "switch" 0 none)) ∧
    (newCalls ua0 (UaStateConnected.RecvEvent ua0 failServerError).2).countP
      Call.isBeginTransaction = 1 ∧
    (newCalls ua0 (UaStateConnected.RecvEvent ua0 failServerError).2).countP
      Call.isCancelCreditTimer = 1 ∧
    (UaStateConnected.RecvEvent ua0 failServerError).2.disconnect_ts = some ⟨80⟩ := by
  obtain ⟨_, _, h1, _, _, _, _, _, _, h2, h3, h4⟩ :=
    C12_disconnect_request ua0 failServerError none rfl rfl (fun h => absurd rfl h)
  exact ⟨h1, h2, h3, h4⟩

end RecvEventTeardown

section SequenceNumber

variable {B : Type} [MsgBody B]

/-- C19: across one `RecvEvent` the local sequence number never decreases and goes
up by at most one; `RecvEvent` calls `GenRequest` at most once, only for REFER,
BYE, INVITE or INFO; the sequence number is incremented by exactly one if and
only if `GenRequest` was called (once) and succeeded, and a call of `RecvEvent`
that generates no request leaves it unchanged. -/
theorem C19_lcseq_monotone (ua : UA B) (event : CCEvent B) :
    ua.lcseq ≤ (UaStateConnected.RecvEvent ua event).2.lcseq ∧
    (newCalls ua (UaStateConnected.RecvEvent ua event).2).countP Call.isGenRequest ≤ 1 ∧
    ((UaStateConnected.RecvEvent ua event).2.lcseq = ua.lcseq + 1 ↔
      (newCalls ua (UaStateConnected.RecvEvent ua event).2).countP Call.isGenRequest = 1 ∧
      ua.gen_request_err = none) ∧
    ((newCalls ua (UaStateConnected.RecvEvent ua event).2).countP Call.isGenRequest = 0 →
      (UaStateConnected.RecvEvent ua event).2.lcseq = ua.lcseq) ∧
    ((UaStateConnected.RecvEvent ua event).2.lcseq = ua.lcseq ∨
      (UaStateConnected.RecvEvent ua event).2.lcseq = ua.lcseq + 1) ∧
    (∀ m b hs, Call.GenRequest m b hs ∈ newCalls ua (UaStateConnected.RecvEvent ua event).2 →
      m = "REFER" ∨ m = "BYE" ∨ m = "INVITE" ∨ m = "INFO") := by
  cases event with
  | Disconnect redirect g =>
    cases redirect <;> cases hs : ua.should_use_refer <;> cases hg : ua.gen_request_err <;>
    cases hl : ua.l_uri.body <;>
    simp [UaStateConnected.RecvEvent, UaStateConnected.RecvEvent_switch,
      UaStateConnected.RecvEvent_disconnected, hs, hg, hl, newCalls, UA.call, UA.GenRequest,
      UA.IncLCSeq, UA.BeginNewClientTransaction, UA.CancelCreditTimer, UA.SetDisconnectTs,
      sipAddressHF.GetBody, Call.isGenRequest] <;>
    (intros; simp_all)
  | Redirect redirect g =>
    cases redirect <;> cases hs : ua.should_use_refer <;> cases hg : ua.gen_request_err <;>
    cases hl : ua.l_uri.body <;>
    simp [UaStateConnected.RecvEvent, UaStateConnected.RecvEvent_switch,
      UaStateConnected.RecvEvent_disconnected, hs, hg, hl, newCalls, UA.call, UA.GenRequest,
      UA.IncLCSeq, UA.BeginNewClientTransaction, UA.CancelCreditTimer, UA.SetDisconnectTs,
      sipAddressHF.GetBody, Call.isGenRequest] <;>
    (intros; simp_all)
  | Fail c r w g =>
    cases hs : ua.should_use_refer <;> cases hg : ua.gen_request_err <;>
    simp [UaStateConnected.RecvEvent, UaStateConnected.RecvEvent_switch,
      UaStateConnected.RecvEvent_disconnected, hs, hg, newCalls, UA.call, UA.GenRequest,
      UA.IncLCSeq, UA.BeginNewClientTransaction, UA.CancelCreditTimer, UA.SetDisconnectTs,
      Call.isGenRequest] <;>
    (intros; simp_all)
  | Update mf body g =>
    cases hf : UaStateConnected.same_as_lsdp ua body
    case true =>
      cases hr : ua.rsdp <;>
      simp [UaStateConnected.RecvEvent, UaStateConnected.RecvEvent_switch, hf, hr, newCalls,
        UA.call, UA.Enqueue, Call.isGenRequest]
    case false =>
      cases hh : UaStateConnected.local_hook_body ua body
      case some b =>
        cases ho : ua.on_local_sdp_change_err <;>
        simp [UaStateConnected.RecvEvent, UaStateConnected.RecvEvent_switch, hf, hh, ho,
          newCalls, UA.call, UA.Enqueue, UA.OnLocalSdpChange, Call.isGenRequest]
      case none =>
        cases mf with
        | none =>
          cases hg : ua.gen_request_err <;> cases hp : ua.prep_tr <;>
          simp [UaStateConnected.RecvEvent, UaStateConnected.RecvEvent_switch,
            UaStateConnected.RecvEvent_invite, hf, hh, hg, hp, newCalls, UA.call,
            UA.GenRequest, UA.IncLCSeq, UA.SetLSDP, UA.PrepTr, UA.SetClientTransaction,
            UA.BeginClientTransaction, Call.isGenRequest] <;>
    (intros; simp_all)
        | some mf =>
          cases hm : mf.body with
          | error e =>
            simp [UaStateConnected.RecvEvent, UaStateConnected.RecvEvent_switch, hf, hh, hm,
              SipMaxForwards.GetBody, newCalls]
          | ok n =>
            by_cases hn : n.Number ≤ 0 <;>
            cases hg : ua.gen_request_err <;> cases hp : ua.prep_tr <;>
            simp [UaStateConnected.RecvEvent, UaStateConnected.RecvEvent_switch,
              UaStateConnected.RecvEvent_invite, hf, hh, hm, hn, hg, hp,
              SipMaxForwards.GetBody, newCalls, UA.call, UA.Enqueue,
              UA.GenRequest, UA.IncLCSeq, UA.SetLSDP, UA.PrepTr, UA.SetClientTransaction,
              UA.BeginClientTransaction, Call.isGenRequest] <;>
    (intros; simp_all)
  | Info body g =>
    cases hg : ua.gen_request_err <;>
    simp [UaStateConnected.RecvEvent, UaStateConnected.RecvEvent_switch, hg, newCalls,
      UA.call, UA.GenRequest, UA.IncLCSeq, UA.BeginNewClientTransaction, Call.isGenRequest] <;>
    (intros; simp_all)
  | Connect c r body g =>
    cases hp : ua.pending_tr
    case none =>
      simp [UaStateConnected.RecvEvent, UaStateConnected.RecvEvent_switch, hp, newCalls]
    case some tr =>
      cases body with
      | none =>
        simp [UaStateConnected.RecvEvent, UaStateConnected.RecvEvent_switch,
          UaStateConnected.local_hook_body, hp, newCalls, UA.call, UA.CancelExpireTimer,
          UA.StartCreditTimer, UA.SetConnectTs, UA.SetLSDP, UA.AckSetBody, UA.SendACK,
          UA.SetPendingTr, UA.ConnCb, UA.OnLocalSdpChange, Call.isGenRequest]
      | some b =>
        cases hh : ua.has_on_local_sdp_change <;> cases hn : MsgBody.NeedsUpdate b <;>
        simp [UaStateConnected.RecvEvent, UaStateConnected.RecvEvent_switch,
          UaStateConnected.local_hook_body, hp, hh, hn, newCalls, UA.call,
          UA.CancelExpireTimer, UA.StartCreditTimer, UA.SetConnectTs, UA.SetLSDP,
          UA.AckSetBody, UA.SendACK, UA.SetPendingTr, UA.ConnCb, UA.OnLocalSdpChange,
          Call.isGenRequest]
  | Other g =>
    simp [UaStateConnected.RecvEvent, UaStateConnected.RecvEvent_switch, newCalls]

/-- C19, at an Update event with a new offer on the sample leg: the INVITE is
generated and the sequence number goes from 1 to 2. -/
theorem C19_lcseq_monotone_witness :
    (UaStateConnected.RecvEvent ua0 updNewOffer).2.lcseq = ua0.lcseq + 1 :=
  (C19_lcseq_monotone ua0 updNewOffer).2.2.1.mpr ⟨by decide, rfl⟩

end SequenceNumber

end Sippy
